import Mathlib

/-
  Verification of the HSKK praat-scoring assessment pipeline.

  Shallow embedding of the scoring core of the repository
  (app/scorers, app/services/tri_core_service.py, app/api/v1/scoring.py,
  app/services/praat_service.py, app/scorers/task_criteria_config.py).

  Modelling conventions:
  * Python floats are modelled as rationals (ℚ).  All constants in the code are
    exact decimals, so the arithmetic is exact.
  * Python `round(x, n)` is modelled as decimal rounding via Mathlib's `round`
    (round-half-up on rationals).  Python's float `round` is round-half-even on
    binary floats; the two agree except on exact decimal midpoints, which no
    claim depends on.
  * Python dicts keyed by strings are modelled as association lists
    (`List (String × α)`) with first-match lookup and in-place update.
  * `async` functions performing external calls are modelled as pure functions
    over an explicit outcome of the external call (success payload vs raised
    exception), mirroring the `try/except` structure of the source.
-/

namespace HSKK

/-- Association-list lookup, modelling Python `dict.__getitem__` /
`key in dict` (first match wins; the pipeline's dicts have unique keys). -/
def alookup {α : Type} (key : String) : List (String × α) → Option α
  | [] => none
  | (k, v) :: rest => if k = key then some v else alookup key rest

/-- Association-list update, modelling Python `dict[key] = value`:
replaces in place when the key is present, appends otherwise
(Python dicts preserve insertion order). -/
def aset {α : Type} (l : List (String × α)) (key : String) (v : α) : List (String × α) :=
  match l with
  | [] => [(key, v)]
  | (k, w) :: rest => if k = key then (key, v) :: rest else (k, w) :: aset rest key v

/-- Python `round(x, 1)` (decimal rounding, see header note). -/
def round1 (x : ℚ) : ℚ := (round (x * 10) : ℤ) / 10

/-- Python `round(x, 2)`. -/
def round2 (x : ℚ) : ℚ := (round (x * 100) : ℤ) / 100

/-- Python `round(x, 3)`. -/
def round3 (x : ℚ) : ℚ := (round (x * 1000) : ℤ) / 1000

/-! ## app/constants/scoring.py -/

def HNR_EXCELLENT : ℚ := 20
def HNR_GOOD : ℚ := 15
def HNR_POOR : ℚ := 10

def JITTER_EXCELLENT : ℚ := 0.01
def JITTER_ACCEPTABLE : ℚ := 0.015
def JITTER_POOR : ℚ := 0.02

def SHIMMER_EXCELLENT : ℚ := 0.05
def SHIMMER_ACCEPTABLE : ℚ := 0.08
def SHIMMER_POOR : ℚ := 0.12

def SPEECH_RATE_SLOW : ℚ := 100
def SPEECH_RATE_IDEAL_MIN : ℚ := 150
def SPEECH_RATE_IDEAL_MAX : ℚ := 220
def SPEECH_RATE_FAST : ℚ := 280

def PAUSE_RATIO_EXCELLENT : ℚ := 0.15
def PAUSE_RATIO_ACCEPTABLE : ℚ := 0.25
def PAUSE_RATIO_POOR : ℚ := 0.35

def MEAN_PAUSE_EXCELLENT : ℚ := 0.3
def MEAN_PAUSE_ACCEPTABLE : ℚ := 0.6
def HESITATION_PAUSE_THRESHOLD : ℚ := 0.5

def NUM_PAUSES_THRESHOLD : ℚ := 10
def FLUENCY_NORMALIZE_DURATION : ℚ := 30

def SPEED_STABILITY_THRESHOLD : ℚ := 50

def DEDUCTION_MINOR : ℚ := 0.15
def DEDUCTION_MODERATE : ℚ := 0.25
def DEDUCTION_MAJOR : ℚ := 0.35
def DEDUCTION_SEVERE : ℚ := 0.5

def SCORE_MULTIPLIER_EXCELLENT : ℚ := 1.0
def SCORE_MULTIPLIER_GOOD : ℚ := 0.75
def SCORE_MULTIPLIER_ACCEPTABLE : ℚ := 0.5
def SCORE_MULTIPLIER_POOR : ℚ := 0.25

/-- `PRONUNCIATION_MAX_SCORES` nested dict. -/
def PRONUNCIATION_MAX_SCORES : List (String × List (String × ℚ)) :=
  [("beginner", [("task1", 0.5), ("task2", 0.5), ("task3", 4.0), ("task", 10.0)]),
   ("intermediate", [("task1", 1.0), ("task2", 3.0), ("task3", 4.0), ("task", 10.0)]),
   ("advanced", [("task1", 2.0), ("task2", 5.0), ("task3", 5.0), ("task", 10.0)])]

/-- `FLUENCY_MAX_SCORES` nested dict. -/
def FLUENCY_MAX_SCORES : List (String × List (String × ℚ)) :=
  [("beginner", [("task1", 0.5), ("task2", 0.5), ("task3", 2.0), ("task", 10.0)]),
   ("intermediate", [("task1", 0.5), ("task2", 2.0), ("task3", 2.0), ("task", 10.0)]),
   ("advanced", [("task1", 2.0), ("task2", 5.0), ("task3", 3.0), ("task", 10.0)])]

/-- `self.max_scores.get(exam_level, {}).get(task, 1.0)`. -/
def nestedGetD (t : List (String × List (String × ℚ))) (k1 k2 : String) (d : ℚ) : ℚ :=
  match alookup k1 t with
  | some inner =>
    match alookup k2 inner with
    | some v => v
    | none => d
  | none => d

/-! ## app/constants/messages.py (the constants the scorers use) -/

def ERROR_SCORING : String := "Không thể chấm điểm tiêu chí này"

def FEEDBACK_PRONUNCIATION_EXCELLENT : String :=
  "Phát âm rõ ràng, không có lỗi sai. Giọng đọc tự nhiên, gần với chuẩn phổ thông."
def FEEDBACK_PRONUNCIATION_GOOD : String :=
  "Phát âm tương đối tốt, có một vài điểm cần cải thiện nhỏ."
/-- Source name: FEEDBACK_PRONUNCIATION_ACCEPTABLE_PREFIX. -/
def FEEDBACK_PRONUNCIATION_ACCEPTABLE_LEAD : String :=
  "Phát âm cơ bản đạt yêu cầu nhưng cần cải thiện: "
def FEEDBACK_PRONUNCIATION_ACCEPTABLE_DEFAULT : String := "độ ổn định của giọng"
/-- Source name: FEEDBACK_PRONUNCIATION_POOR_PREFIX. -/
def FEEDBACK_PRONUNCIATION_POOR_LEAD : String := "Mức độ kiểm soát cơ quan phát âm chưa tốt. "
def FEEDBACK_PRONUNCIATION_POOR_SUFFIX : String := "Các vấn đề cần khắc phục: "

def ISSUE_LOW_HNR : String := "Độ trong của giọng chưa tốt (HNR thấp)"
def ISSUE_NOISY_VOICE : String := "Giọng nói có nhiều nhiễu, thiếu độ trong"
def ISSUE_HIGH_JITTER : String := "Tần số giọng không ổn định (jitter cao)"
def ISSUE_UNSTABLE_VOICE_SEVERE : String := "Giọng nói thiếu ổn định nghiêm trọng"
def ISSUE_HIGH_SHIMMER : String := "Âm lượng không đều (shimmer cao)"
def ISSUE_HIGH_SHIMMER_SEVERE : String := "Âm lượng biến thiên quá lớn"

def FEEDBACK_FLUENCY_EXCELLENT : String :=
  "Tốc độ lời nói ổn định, không có ngập ngừng đáng kể. Ngữ điệu tự nhiên."
/-- `FEEDBACK_FLUENCY_GOOD_TEMPLATE.format(issue=...)` applied to its argument. -/
def feedbackFluencyGood (issue : String) : String :=
  "Độ trôi chảy tốt, có một điểm cần cải thiện: " ++ issue ++ "."
/-- Source name: FEEDBACK_FLUENCY_ACCEPTABLE_PREFIX. -/
def FEEDBACK_FLUENCY_ACCEPTABLE_LEAD : String := "Mạch lời nói cơ bản đạt yêu cầu. Cần cải thiện: "
/-- Source name: FEEDBACK_FLUENCY_POOR_PREFIX. -/
def FEEDBACK_FLUENCY_POOR_LEAD : String := "Mạch lời nói rời rạc, thiếu sự điều tiết về nhịp và cao độ. "
def FEEDBACK_FLUENCY_POOR_SUFFIX : String := "Các vấn đề: "

def ISSUE_SPEECH_TOO_SLOW : String := "Tốc độ nói quá chậm"
def ISSUE_SPEECH_SLIGHTLY_SLOW : String := "Tốc độ nói hơi chậm"
def ISSUE_SPEECH_TOO_FAST : String := "Tốc độ nói quá nhanh"
def ISSUE_SPEECH_SLIGHTLY_FAST : String := "Tốc độ nói hơi nhanh"
def ISSUE_TOO_MANY_PAUSES : String := "Ngắt nghỉ quá nhiều"
def ISSUE_PAUSES_TOO_LONG : String := "Thời gian ngắt nghỉ quá dài"
def ISSUE_HESITATION : String := "Ngập ngừng nhiều lần"
def ISSUE_SPEED_UNSTABLE : String := "Tốc độ nói không ổn định"

/-! ## app/scorers/base_scorer.py -/

/-- `ScoreLevel` enum. -/
inductive ScoreLevel where
  | excellent
  | good
  | acceptable
  | poor
deriving DecidableEq, Repr

/-- `ScoreLevel.value` (the enum's string value). -/
def ScoreLevel.value : ScoreLevel → String
  | .excellent => "excellent"
  | .good => "good"
  | .acceptable => "acceptable"
  | .poor => "poor"

/-- A value of the strategy-specific `details` payload dict. -/
inductive DetailVal where
  | num (q : ℚ)
  | str (s : String)
  | strList (l : List String)
deriving DecidableEq, Repr

/-- `ScoringResult` dataclass. -/
structure ScoringResult where
  score : ℚ
  max_score : ℚ
  level : ScoreLevel
  issues : List String
  feedback : String
  details : List (String × DetailVal)
deriving DecidableEq, Repr

/-- `ScoringResult.percentage` property. -/
def ScoringResult.percentage (r : ScoringResult) : ℚ :=
  if r.max_score = 0 then 0 else r.score / r.max_score * 100

/-- `BaseScorer._determine_level`. -/
def determineLevel (score max_score : ℚ) : ScoreLevel :=
  if max_score = 0 then .poor
  else
    let pct := score / max_score * 100
    if pct ≥ 90 then .excellent
    else if pct ≥ 70 then .good
    else if pct ≥ 50 then .acceptable
    else .poor

/-! ## Feature input

The scorers take `data: Dict[str, Any]` and read it with `data.get(key, default)`. -/

abbrev FeatureMap : Type := List (String × ℚ)

/-- `data.get(key, default)`. -/
def FeatureMap.getD (data : FeatureMap) (key : String) (d : ℚ) : ℚ :=
  match alookup key data with
  | some v => v
  | none => d

/-! ## app/scorers/praat_scorers/pronunciation_scorer.py

`PronunciationScorer.score`, split into the three threshold-band checks of the
source (HNR / jitter / shimmer blocks), each returning
(quality string, deduction, issue strings appended by the block). -/

/-- HNR check block (voice clarity). -/
def hnrCheck (hnr : ℚ) : String × ℚ × List String :=
  if hnr ≥ HNR_EXCELLENT then ("excellent", 0, [])
  else if hnr ≥ HNR_GOOD then ("good", DEDUCTION_MINOR, [])
  else if hnr ≥ HNR_POOR then ("acceptable", DEDUCTION_MODERATE + 0.05, [ISSUE_LOW_HNR])
  else ("poor", DEDUCTION_SEVERE, [ISSUE_NOISY_VOICE])

/-- Jitter check block (voice stability). -/
def jitterCheck (jitter : ℚ) : String × ℚ × List String :=
  if jitter ≤ JITTER_EXCELLENT then ("excellent", 0, [])
  else if jitter ≤ JITTER_ACCEPTABLE then ("acceptable", DEDUCTION_MINOR, [])
  else if jitter ≤ JITTER_POOR then ("poor", DEDUCTION_MODERATE, [ISSUE_HIGH_JITTER])
  else ("very_poor", DEDUCTION_MAJOR, [ISSUE_UNSTABLE_VOICE_SEVERE])

/-- Shimmer check block (amplitude consistency). -/
def shimmerCheck (shimmer : ℚ) : String × ℚ × List String :=
  if shimmer ≤ SHIMMER_EXCELLENT then ("excellent", 0, [])
  else if shimmer ≤ SHIMMER_ACCEPTABLE then ("acceptable", DEDUCTION_MINOR, [])
  else if shimmer ≤ SHIMMER_POOR then ("poor", DEDUCTION_MODERATE, [ISSUE_HIGH_SHIMMER])
  else ("very_poor", DEDUCTION_MAJOR, [ISSUE_HIGH_SHIMMER_SEVERE])

/-- `PronunciationScorer._generate_feedback`. -/
def pronunciationFeedback (level : ScoreLevel) (issues : List String) : String :=
  match level with
  | .excellent => FEEDBACK_PRONUNCIATION_EXCELLENT
  | .good => FEEDBACK_PRONUNCIATION_GOOD
  | .acceptable =>
    FEEDBACK_PRONUNCIATION_ACCEPTABLE_LEAD ++
      (if issues ≠ [] then String.intercalate "; " (issues.take 2)
       else FEEDBACK_PRONUNCIATION_ACCEPTABLE_DEFAULT)
  | .poor =>
    FEEDBACK_PRONUNCIATION_POOR_LEAD ++
      (if issues ≠ [] then FEEDBACK_PRONUNCIATION_POOR_SUFFIX ++ String.intercalate "; " issues
       else "")

/-- Summed deductions of `PronunciationScorer.score` for given primary metrics. -/
def pronunciationDeductions (hnr jitter shimmer : ℚ) : ℚ :=
  (hnrCheck hnr).2.1 + (jitterCheck jitter).2.1 + (shimmerCheck shimmer).2.1

/-- Issues list of `PronunciationScorer.score` (appended in HNR, jitter,
shimmer order, as in the source). -/
def pronunciationIssues (hnr jitter shimmer : ℚ) : List String :=
  (hnrCheck hnr).2.2 ++ (jitterCheck jitter).2.2 ++ (shimmerCheck shimmer).2.2

/-- `score = max(0, max_score * (1 - deductions))` (the pre-rounding score). -/
def pronunciationRaw (maxScore hnr jitter shimmer : ℚ) : ℚ :=
  max 0 (maxScore * (1 - pronunciationDeductions hnr jitter shimmer))

/-- Body of `PronunciationScorer.score` once the primary and secondary metrics
have been extracted from the feature dict. -/
def pronunciationFromMetrics (maxScore hnr jitter shimmer pitch_range pitch_std f1_mean f2_mean : ℚ) :
    ScoringResult :=
  let issues := pronunciationIssues hnr jitter shimmer
  let score := pronunciationRaw maxScore hnr jitter shimmer
  let level := determineLevel score maxScore
  { score := round2 score
    max_score := maxScore
    level := level
    issues := issues
    feedback := pronunciationFeedback level issues
    details :=
      [("hnr_mean", .num hnr), ("hnr_quality", .str (hnrCheck hnr).1),
       ("jitter_local", .num jitter), ("jitter_quality", .str (jitterCheck jitter).1),
       ("shimmer_local", .num shimmer), ("shimmer_quality", .str (shimmerCheck shimmer).1),
       ("pitch_range", .num pitch_range), ("pitch_std", .num pitch_std),
       ("f1_mean", .num f1_mean), ("f2_mean", .num f2_mean)] }

/-- `PronunciationScorer.score(data, task)` with the max score already
resolved (`max_score = self.max_scores.get(self.exam_level, {}).get(task, 1.0)`). -/
def pronunciationScoreCore (maxScore : ℚ) (data : FeatureMap) : ScoringResult :=
  pronunciationFromMetrics maxScore
    (data.getD "hnr_mean" 0) (data.getD "jitter_local" 1) (data.getD "shimmer_local" 1)
    (data.getD "pitch_range" 0) (data.getD "pitch_std" 0)
    (data.getD "f1_mean" 0) (data.getD "f2_mean" 0)

/-- `PronunciationScorer.score` with the max score resolved from
`PRONUNCIATION_MAX_SCORES` by exam level and task. -/
def pronunciationScore (examLevel task : String) (data : FeatureMap) : ScoringResult :=
  pronunciationScoreCore (nestedGetD PRONUNCIATION_MAX_SCORES examLevel task 1) data

/-! ## app/scorers/praat_scorers/fluency_scorer.py -/

/-- `FluencyScorer._check_speech_rate` (returns "" when the rate is ideal). -/
def checkSpeechRate (rate : ℚ) : String :=
  if rate < SPEECH_RATE_SLOW then ISSUE_SPEECH_TOO_SLOW
  else if rate < SPEECH_RATE_IDEAL_MIN then ISSUE_SPEECH_SLIGHTLY_SLOW
  else if rate > SPEECH_RATE_FAST then ISSUE_SPEECH_TOO_FAST
  else if rate > SPEECH_RATE_IDEAL_MAX then ISSUE_SPEECH_SLIGHTLY_FAST
  else ""

def PROBLEM_WRONG_PAUSE : String := "ngat_nghi_sai"
def PROBLEM_HESITATION : String := "ngap_ngung"
def PROBLEM_SPEED_UNSTABLE : String := "toc_do_khong_on_dinh"

/-- `FluencyScorer._check_pause_patterns`: (issues, detected problem codes). -/
def checkPausePatterns (pause_ratio _num_pauses mean_pause normalized_pauses : ℚ) :
    List String × List String :=
  let first :=
    if pause_ratio > PAUSE_RATIO_ACCEPTABLE then ([ISSUE_TOO_MANY_PAUSES], [PROBLEM_WRONG_PAUSE])
    else if mean_pause > MEAN_PAUSE_ACCEPTABLE then ([ISSUE_PAUSES_TOO_LONG], [PROBLEM_WRONG_PAUSE])
    else ([], [])
  let second :=
    if normalized_pauses > NUM_PAUSES_THRESHOLD ∧ mean_pause < HESITATION_PAUSE_THRESHOLD then
      ([ISSUE_HESITATION], [PROBLEM_HESITATION])
    else ([], [])
  (first.1 ++ second.1, first.2 ++ second.2)

/-- `FluencyScorer._generate_feedback`. -/
def fluencyFeedback (level : ScoreLevel) (issues : List String) : String :=
  match level with
  | .excellent => FEEDBACK_FLUENCY_EXCELLENT
  | .good => feedbackFluencyGood (issues.headD "")
  | .acceptable => FEEDBACK_FLUENCY_ACCEPTABLE_LEAD ++ String.intercalate "; " (issues.take 2)
  | .poor =>
    FEEDBACK_FLUENCY_POOR_LEAD ++ FEEDBACK_FLUENCY_POOR_SUFFIX ++ String.intercalate "; " issues

/-- Pause-count normalisation to a 30-second window:
`(num_pauses / duration) * FLUENCY_NORMALIZE_DURATION if duration > 0 else num_pauses`. -/
def normalizedPausesOf (num_pauses duration : ℚ) : ℚ :=
  if duration > 0 then num_pauses / duration * FLUENCY_NORMALIZE_DURATION else num_pauses

/-- Issues detected by `FluencyScorer.score` for given metrics
(speech-rate check, then pause patterns, then speed stability). -/
def fluencyIssuesOf (speech_rate pause_ratio num_pauses mean_pause articulation_rate duration : ℚ) :
    List String :=
  let rate_issue := checkSpeechRate speech_rate
  let issues := if rate_issue ≠ "" then [rate_issue] else []
  let pp := checkPausePatterns pause_ratio num_pauses mean_pause
    (normalizedPausesOf num_pauses duration)
  let issues := issues ++ pp.1
  if |articulation_rate - speech_rate| > SPEED_STABILITY_THRESHOLD then
    issues ++ [ISSUE_SPEED_UNSTABLE]
  else issues

/-- Fraction of `max_score` awarded for an issue count (the step function of
`FluencyScorer.score`). -/
def fluencyMultiplier (n : ℕ) : ℚ :=
  if n = 0 then SCORE_MULTIPLIER_EXCELLENT
  else if n = 1 then SCORE_MULTIPLIER_GOOD
  else if n = 2 then SCORE_MULTIPLIER_ACCEPTABLE
  else SCORE_MULTIPLIER_POOR

/-- Level assigned by `FluencyScorer.score` for an issue count. -/
def fluencyLevel (n : ℕ) : ScoreLevel :=
  if n = 0 then .excellent else if n = 1 then .good else if n = 2 then .acceptable else .poor

/-- Body of `FluencyScorer.score` once the metrics are extracted. -/
def fluencyFromMetrics (maxScore speech_rate pause_ratio num_pauses mean_pause articulation_rate
    duration : ℚ) : ScoringResult :=
  let issues := fluencyIssuesOf speech_rate pause_ratio num_pauses mean_pause articulation_rate
    duration
  let pp := checkPausePatterns pause_ratio num_pauses mean_pause
    (normalizedPausesOf num_pauses duration)
  let speed_diff := |articulation_rate - speech_rate|
  let detected_problems :=
    if speed_diff > SPEED_STABILITY_THRESHOLD then pp.2 ++ [PROBLEM_SPEED_UNSTABLE] else pp.2
  let score := maxScore * fluencyMultiplier issues.length
  let level := fluencyLevel issues.length
  { score := round2 score
    max_score := maxScore
    level := level
    issues := issues
    feedback := fluencyFeedback level issues
    details :=
      [("speech_rate", .num speech_rate), ("pause_ratio", .num (round3 pause_ratio)),
       ("num_pauses", .num num_pauses), ("mean_pause_duration", .num (round3 mean_pause)),
       ("articulation_rate", .num articulation_rate), ("speed_stability", .num (round2 speed_diff)),
       ("detected_problems", .strList detected_problems)] }

/-- `FluencyScorer.score(data, task)` with the max score already resolved. -/
def fluencyScoreCore (maxScore : ℚ) (data : FeatureMap) : ScoringResult :=
  fluencyFromMetrics maxScore
    (data.getD "speech_rate" 0) (data.getD "pause_ratio" 1) (data.getD "num_pauses" 0)
    (data.getD "mean_pause_duration" 0) (data.getD "articulation_rate" 0)
    (data.getD "duration" 1)

/-- `FluencyScorer.score` with the max score resolved from `FLUENCY_MAX_SCORES`. -/
def fluencyScore (examLevel task : String) (data : FeatureMap) : ScoringResult :=
  fluencyScoreCore (nestedGetD FLUENCY_MAX_SCORES examLevel task 1) data

/-! ## app/scorers/task_criteria_config.py -/

/-- `CriteriaType` enum. -/
inductive CriteriaType where
  | task_achievement
  | pronunciation
  | fluency
  | grammar
  | vocabulary
  | coherence
deriving DecidableEq, Repr

/-- `CriteriaType.value` (the enum's string value). -/
def CriteriaType.value : CriteriaType → String
  | .task_achievement => "task_achievement"
  | .pronunciation => "pronunciation"
  | .fluency => "fluency"
  | .grammar => "grammar"
  | .vocabulary => "vocabulary"
  | .coherence => "coherence"

/-- `DataSource` enum (PRAAT = acoustic, AI = judged). -/
inductive DataSource where
  | praat
  | ai
deriving DecidableEq, Repr

/-- `CriteriaConfig` dataclass. -/
structure CriteriaConfig where
  ctype : CriteriaType
  source : DataSource
  max_score : ℚ
  name_vi : String
  requires_reference : Bool := false
deriving DecidableEq, Repr

/-- `TaskConfig` dataclass. -/
structure TaskConfig where
  task_code : String
  task_name : String
  exam_level : String
  level_name : String
  question_count : ℕ
  points_per_question : ℚ
  total_points : ℚ
  criteria : List CriteriaConfig
deriving DecidableEq, Repr

/-- `TaskConfig.has_ai_criteria` property. -/
def TaskConfig.has_ai_criteria (cfg : TaskConfig) : Bool :=
  cfg.criteria.any fun c => c.source = DataSource.ai

/-- `TaskConfig.has_praat_criteria` property. -/
def TaskConfig.has_praat_criteria (cfg : TaskConfig) : Bool :=
  cfg.criteria.any fun c => c.source = DataSource.praat

def HSKKSC1_CONFIG : TaskConfig :=
  { task_code := "HSKKSC1", task_name := "Nghe và nhắc lại", exam_level := "101"
    level_name := "beginner", question_count := 15, points_per_question := 2.0
    total_points := 30.0
    criteria :=
      [{ ctype := .task_achievement, source := .ai, max_score := 1.0
         name_vi := "Khả năng hoàn thành yêu cầu", requires_reference := true },
       { ctype := .pronunciation, source := .praat, max_score := 0.5, name_vi := "Phát âm" },
       { ctype := .fluency, source := .praat, max_score := 0.5, name_vi := "Độ trôi chảy" }] }

def HSKKSC2_CONFIG : TaskConfig :=
  { task_code := "HSKKSC2", task_name := "Nghe và trả lời (câu ngắn)", exam_level := "101"
    level_name := "beginner", question_count := 10, points_per_question := 3.0
    total_points := 30.0
    criteria :=
      [{ ctype := .task_achievement, source := .ai, max_score := 1.5
         name_vi := "Khả năng hoàn thành yêu cầu" },
       { ctype := .grammar, source := .ai, max_score := 0.5, name_vi := "Độ chính xác ngữ pháp" },
       { ctype := .pronunciation, source := .praat, max_score := 0.5, name_vi := "Phát âm" },
       { ctype := .fluency, source := .praat, max_score := 0.5, name_vi := "Độ trôi chảy" }] }

def HSKKSC3_CONFIG : TaskConfig :=
  { task_code := "HSKKSC3", task_name := "Trả lời câu hỏi (đoạn ngắn)", exam_level := "101"
    level_name := "beginner", question_count := 2, points_per_question := 20.0
    total_points := 40.0
    criteria :=
      [{ ctype := .task_achievement, source := .ai, max_score := 6.0
         name_vi := "Khả năng hoàn thành yêu cầu" },
       { ctype := .pronunciation, source := .praat, max_score := 4.0, name_vi := "Phát âm" },
       { ctype := .grammar, source := .ai, max_score := 4.0
         name_vi := "Độ đa dạng và chính xác ngữ pháp" },
       { ctype := .vocabulary, source := .ai, max_score := 2.0, name_vi := "Vốn từ vựng" },
       { ctype := .coherence, source := .ai, max_score := 2.0
         name_vi := "Tính mạch lạc và liên kết" },
       { ctype := .fluency, source := .praat, max_score := 2.0, name_vi := "Độ trôi chảy" }] }

def HSKKTC1_CONFIG : TaskConfig :=
  { task_code := "HSKKTC1", task_name := "Nghe và nhắc lại", exam_level := "102"
    level_name := "intermediate", question_count := 10, points_per_question := 3.0
    total_points := 30.0
    criteria :=
      [{ ctype := .task_achievement, source := .ai, max_score := 1.5
         name_vi := "Khả năng hoàn thành yêu cầu", requires_reference := true },
       { ctype := .pronunciation, source := .praat, max_score := 1.0, name_vi := "Phát âm" },
       { ctype := .fluency, source := .praat, max_score := 0.5, name_vi := "Độ trôi chảy" }] }

def HSKKTC2_CONFIG : TaskConfig :=
  { task_code := "HSKKTC2", task_name := "Mô tả tranh (đoạn văn ngắn)", exam_level := "102"
    level_name := "intermediate", question_count := 2, points_per_question := 15.0
    total_points := 30.0
    criteria :=
      [{ ctype := .task_achievement, source := .ai, max_score := 5.0
         name_vi := "Khả năng hoàn thành yêu cầu" },
       { ctype := .pronunciation, source := .praat, max_score := 3.0, name_vi := "Phát âm" },
       { ctype := .grammar, source := .ai, max_score := 3.0
         name_vi := "Độ đa dạng và chính xác ngữ pháp" },
       { ctype := .vocabulary, source := .ai, max_score := 1.0, name_vi := "Vốn từ vựng" },
       { ctype := .coherence, source := .ai, max_score := 1.0
         name_vi := "Tính mạch lạc và liên kết" },
       { ctype := .fluency, source := .praat, max_score := 2.0, name_vi := "Độ trôi chảy" }] }

def HSKKTC3_CONFIG : TaskConfig :=
  { task_code := "HSKKTC3", task_name := "Trả lời câu hỏi (đoạn ngắn)", exam_level := "102"
    level_name := "intermediate", question_count := 2, points_per_question := 20.0
    total_points := 40.0
    criteria :=
      [{ ctype := .task_achievement, source := .ai, max_score := 6.0
         name_vi := "Khả năng hoàn thành yêu cầu" },
       { ctype := .pronunciation, source := .praat, max_score := 4.0, name_vi := "Phát âm" },
       { ctype := .grammar, source := .ai, max_score := 4.0
         name_vi := "Độ đa dạng và chính xác ngữ pháp" },
       { ctype := .vocabulary, source := .ai, max_score := 2.0, name_vi := "Vốn từ vựng" },
       { ctype := .coherence, source := .ai, max_score := 2.0
         name_vi := "Tính mạch lạc và liên kết" },
       { ctype := .fluency, source := .praat, max_score := 2.0, name_vi := "Độ trôi chảy" }] }

def HSKKCC1_CONFIG : TaskConfig :=
  { task_code := "HSKKCC1", task_name := "Nghe và nhắc lại", exam_level := "103"
    level_name := "advanced", question_count := 3, points_per_question := 10.0
    total_points := 30.0
    criteria :=
      [{ ctype := .task_achievement, source := .ai, max_score := 4.0
         name_vi := "Khả năng hoàn thành yêu cầu", requires_reference := true },
       { ctype := .pronunciation, source := .praat, max_score := 2.0, name_vi := "Phát âm" },
       { ctype := .grammar, source := .ai, max_score := 2.0, name_vi := "Độ chính xác ngữ pháp" },
       { ctype := .fluency, source := .praat, max_score := 2.0, name_vi := "Độ trôi chảy" }] }

def HSKKCC2_CONFIG : TaskConfig :=
  { task_code := "HSKKCC2", task_name := "Đọc đoạn văn", exam_level := "103"
    level_name := "advanced", question_count := 1, points_per_question := 20.0
    total_points := 20.0
    criteria :=
      [{ ctype := .task_achievement, source := .ai, max_score := 10.0
         name_vi := "Khả năng hoàn thành yêu cầu", requires_reference := true },
       { ctype := .pronunciation, source := .praat, max_score := 5.0, name_vi := "Phát âm" },
       { ctype := .fluency, source := .praat, max_score := 5.0, name_vi := "Độ trôi chảy" }] }

def HSKKCC3_CONFIG : TaskConfig :=
  { task_code := "HSKKCC3", task_name := "Trả lời câu hỏi (đoạn ngắn)", exam_level := "103"
    level_name := "advanced", question_count := 2, points_per_question := 25.0
    total_points := 50.0
    criteria :=
      [{ ctype := .task_achievement, source := .ai, max_score := 8.0
         name_vi := "Khả năng hoàn thành yêu cầu" },
       { ctype := .pronunciation, source := .praat, max_score := 5.0, name_vi := "Phát âm" },
       { ctype := .grammar, source := .ai, max_score := 4.0
         name_vi := "Độ đa dạng và chính xác ngữ pháp" },
       { ctype := .vocabulary, source := .ai, max_score := 2.0, name_vi := "Vốn từ vựng" },
       { ctype := .coherence, source := .ai, max_score := 3.0
         name_vi := "Tính mạch lạc và liên kết" },
       { ctype := .fluency, source := .praat, max_score := 3.0, name_vi := "Độ trôi chảy" }] }

/-- `TASK_CONFIGS` registry. -/
def TASK_CONFIGS : List (String × TaskConfig) :=
  [("HSKKSC1", HSKKSC1_CONFIG), ("HSKKSC2", HSKKSC2_CONFIG), ("HSKKSC3", HSKKSC3_CONFIG),
   ("HSKKTC1", HSKKTC1_CONFIG), ("HSKKTC2", HSKKTC2_CONFIG), ("HSKKTC3", HSKKTC3_CONFIG),
   ("HSKKCC1", HSKKCC1_CONFIG), ("HSKKCC2", HSKKCC2_CONFIG), ("HSKKCC3", HSKKCC3_CONFIG)]

/-- `get_task_config`. -/
def getTaskConfig (task_code : String) : Option TaskConfig :=
  alookup task_code TASK_CONFIGS

/-! ## app/services/tri_core_service.py — multi-model STT fan-out

Each backend wrapper catches its own exceptions and returns an error-marker
string, so the fan-out (`asyncio.gather` of the three coroutines) is modelled
as a pure function of the three independent backend outcomes. -/

/-- Outcome of the OpenAI Whisper call inside `transcribe_with_whisper`'s `try`. -/
inductive WhisperOutcome where
  | ok (text : String)
  | raises (msg : String)
deriving DecidableEq, Repr

/-- `transcribe_with_whisper` (returns the transcription, or the error marker
built in its `except` branch). -/
def transcribe_with_whisper : WhisperOutcome → String
  | .ok t => t
  | .raises e => "[Whisper Error: " ++ e ++ "]"

/-- Outcome of the FunASR model call inside `transcribe_with_funasr`. -/
inductive FunasrOutcome where
  | modelNotLoaded
  | raises (msg : String)
  | emptyResult
  | ok (text : String)
deriving DecidableEq, Repr

/-- Text field of `transcribe_with_funasr`'s result dict
(word-timestamp extraction is not modelled; it feeds only the optional
word-analysis satellite feature). -/
def transcribe_with_funasr : FunasrOutcome → String
  | .modelNotLoaded => "[FunASR Error: Model not loaded]"
  | .raises e => "[FunASR Error: " ++ e ++ "]"
  | .emptyResult => ""
  | .ok t => t.replace " " ""

/-- Outcome of the Gemini call inside `transcribe_with_gemini_stt`. -/
inductive GeminiOutcome where
  | ok (text : String)
  | raises (msg : String)
deriving DecidableEq, Repr

/-- `transcribe_with_gemini_stt`. -/
def transcribe_with_gemini_stt : GeminiOutcome → String
  | .ok t => t.trim
  | .raises e => "[Gemini STT Error: " ++ e ++ "]"

/-- `get_multi_model_stt`: the `texts` list
`[whisper_result, funasr_result["text"], gemini_result]` gathered from the
three parallel backend tasks. -/
def get_multi_model_stt (w : WhisperOutcome) (f : FunasrOutcome) (g : GeminiOutcome) :
    List String :=
  [transcribe_with_whisper w, transcribe_with_funasr f, transcribe_with_gemini_stt g]

/-! ## app/services/tri_core_service.py — unified AI scoring (judgment dispatcher) -/

/-- `CriteriaScore` pydantic model.  The `Field(ge=0, le=100)` validation on
`score` is not modelled as a separate branch: a validation failure raises
inside `unified_ai_scoring`'s `try` and lands in the same `except` branch as a
failed API call, which is modelled by `JudgeCall.fails`. -/
structure CriteriaScore where
  score : ℚ
  max_score : ℚ
  feedback : String := ""
  issues : List String := []
deriving DecidableEq, Repr

/-- `TriCoreScoringResult` pydantic model. -/
structure TriCoreScoringResult where
  pronunciation : Option CriteriaScore := none
  fluency : Option CriteriaScore := none
  task_achievement : Option CriteriaScore := none
  grammar : Option CriteriaScore := none
  vocabulary : Option CriteriaScore := none
  coherence : Option CriteriaScore := none
  overall_feedback : String := ""
deriving DecidableEq, Repr

/-- `getattr(result, criteria_name, None)` for the six criteria fields. -/
def TriCoreScoringResult.getCriteria (r : TriCoreScoringResult) (name : String) :
    Option CriteriaScore :=
  if name = "pronunciation" then r.pronunciation
  else if name = "fluency" then r.fluency
  else if name = "task_achievement" then r.task_achievement
  else if name = "grammar" then r.grammar
  else if name = "vocabulary" then r.vocabulary
  else if name = "coherence" then r.coherence
  else none

/-- `setattr(result, criteria_name, score_obj)` for the six criteria fields. -/
def TriCoreScoringResult.setCriteria (r : TriCoreScoringResult) (name : String)
    (v : CriteriaScore) : TriCoreScoringResult :=
  if name = "pronunciation" then { r with pronunciation := some v }
  else if name = "fluency" then { r with fluency := some v }
  else if name = "task_achievement" then { r with task_achievement := some v }
  else if name = "grammar" then { r with grammar := some v }
  else if name = "vocabulary" then { r with vocabulary := some v }
  else if name = "coherence" then { r with coherence := some v }
  else r

/-- One per-criterion entry of the judge's parsed JSON object
(`result_dict[criteria_name]`), fields read with `.get(key, default)`. -/
structure JudgeEntry where
  score : Option ℚ := none
  max_score : Option ℚ := none
  feedback : Option String := none
  issues : Option (List String) := none
deriving DecidableEq, Repr

/-- The judge's parsed JSON object (`result_dict`). -/
structure JudgeDict where
  entries : List (String × JudgeEntry)
  overall_feedback : Option String := none
deriving DecidableEq, Repr

/-- Outcome of the single judge call inside `unified_ai_scoring`'s `try`:
either the chat completion + `json.loads` succeed with a parsed dict, or an
exception is raised (network error, unparseable response, validation error). -/
inductive JudgeCall where
  | returns (d : JudgeDict)
  | fails (msg : String)
deriving DecidableEq, Repr

/-- The acoustic pre-scores dict passed as `praat_scores`
(built in `score_with_criteria` from the deterministic results; the opaque
`details` sub-dict only flows into the prompt text and is not modelled). -/
structure PraatPre where
  score : ℚ
  max_score : ℚ
  feedback : String
  issues : List String
deriving DecidableEq, Repr

/-- `unified_ai_scoring`: parses the judge response into a
`TriCoreScoringResult`.  For the two Praat criteria it keeps the original
pre-computed score when `praat_scores` is truthy and contains the criterion,
falling back to the judge's own score/max otherwise; for AI criteria it takes
`min(judge_score, max_score)`.  `praat_scores = none` models both `None` and
the empty dict (both falsy in `if praat_scores and ...`). -/
def unified_ai_scoring (ai_criteria_config : List (String × ℚ))
    (praat_scores : Option (List (String × PraatPre))) (call : JudgeCall) :
    TriCoreScoringResult :=
  match call with
  | .fails msg => { overall_feedback := "Lỗi khi chấm điểm: " ++ msg }
  | .returns d =>
    let result : TriCoreScoringResult := { overall_feedback := d.overall_feedback.getD "" }
    let result := (["pronunciation", "fluency"]).foldl
      (fun r praat_name =>
        match alookup praat_name d.entries with
        | some gpt_data =>
          let orig : ℚ × ℚ :=
            match praat_scores with
            | some ps =>
              match alookup praat_name ps with
              | some pre => (pre.score, pre.max_score)
              | none => (gpt_data.score.getD 0, gpt_data.max_score.getD 10)
            | none => (gpt_data.score.getD 0, gpt_data.max_score.getD 10)
          r.setCriteria praat_name
            { score := orig.1, max_score := orig.2
              feedback := gpt_data.feedback.getD "", issues := gpt_data.issues.getD [] }
        | none => r)
      result
    ai_criteria_config.foldl
      (fun r p =>
        match alookup p.1 d.entries with
        | some cd =>
          r.setCriteria p.1
            { score := min (cd.score.getD 0) p.2, max_score := p.2
              feedback := cd.feedback.getD "", issues := cd.issues.getD [] }
        | none => r)
      result

/-! ## app/api/v1/scoring.py — score_with_criteria -/

/-- `ScoreDetail` pydantic model. -/
structure ScoreDetail where
  criteria_name : String
  score : ℚ
  max_score : ℚ
  percentage : ℚ
  level : String
  issues : List String
  feedback : String
  details : Option (List (String × DetailVal)) := none
deriving DecidableEq, Repr

/-- `scoring_result_to_detail`. -/
def scoring_result_to_detail (r : ScoringResult) (criteria_name : String) : ScoreDetail :=
  { criteria_name := criteria_name
    score := r.score
    max_score := r.max_score
    percentage := r.percentage
    level := r.level.value
    issues := r.issues
    feedback := r.feedback
    details := some r.details }

/-- The dict of per-criterion results (`scores` in `score_with_criteria`). -/
abbrev ScoresMap : Type := List (String × ScoreDetail)

/-- `praat_criteria = [c for c in task_config.criteria if c.source == DataSource.PRAAT]`. -/
def praat_criteria (cfg : TaskConfig) : List CriteriaConfig :=
  cfg.criteria.filter fun c => c.source = DataSource.praat

/-- `ai_criteria = [c for c in task_config.criteria if c.source == DataSource.AI]`. -/
def ai_criteria (cfg : TaskConfig) : List CriteriaConfig :=
  cfg.criteria.filter fun c => c.source = DataSource.ai

/-- One iteration of the Praat-criteria loop of `score_with_criteria`.  For a
criterion of type pronunciation/fluency the matching scorer is run with
`scorer.max_scores[level] = {"task": criteria.max_score}` and `task="task"`,
which resolves the scorer's max score to exactly `criteria.max_score`.  The
scorers are total pure functions, so the `except` branch of this loop is
unreachable.  Praat-sourced criteria whose type has no branch add nothing, as
in the source. -/
def praatStep (features : FeatureMap) (scores : ScoresMap) (c : CriteriaConfig) : ScoresMap :=
  match c.ctype with
  | .pronunciation =>
    aset scores "pronunciation"
      (scoring_result_to_detail (pronunciationScoreCore c.max_score features) c.name_vi)
  | .fluency =>
    aset scores "fluency"
      (scoring_result_to_detail (fluencyScoreCore c.max_score features) c.name_vi)
  | _ => scores

def praatPhase (cfg : TaskConfig) (features : FeatureMap) : ScoresMap :=
  (praat_criteria cfg).foldl (praatStep features) []

/-- The `ai_criteria_config` dict built from the task's AI criteria.  Modelled
as the (type.value, max_score) pairs in criteria order; duplicate types cannot
occur in the registry configs. -/
def aiCriteriaConfigOf (cfg : TaskConfig) : List (String × ℚ) :=
  (ai_criteria cfg).map fun c => (c.ctype.value, c.max_score)

/-- The `criteria_names_vi` dict built alongside `ai_criteria_config`. -/
def criteriaNamesViOf (cfg : TaskConfig) : List (String × String) :=
  (ai_criteria cfg).map fun c => (c.ctype.value, c.name_vi)

/-- `praat_scores_for_gpt` assembled from the deterministic results already in
`scores` (passed to the judge as `praat_scores`; `None` when empty). -/
def praatPreOf (scores : ScoresMap) : Option (List (String × PraatPre)) :=
  let l :=
    (match alookup "pronunciation" scores with
     | some p => [("pronunciation",
        ({ score := p.score, max_score := p.max_score, feedback := p.feedback,
           issues := p.issues } : PraatPre))]
     | none => []) ++
    (match alookup "fluency" scores with
     | some f => [("fluency",
        ({ score := f.score, max_score := f.max_score, feedback := f.feedback,
           issues := f.issues } : PraatPre))]
     | none => [])
  if l = [] then none else some l

/-- The post-judgment update of the two Praat entries in `score_with_criteria`
(lines 394-409): keeps the original score/max/percentage/level/details and
takes the judge's feedback/issues only when non-empty. -/
def praatFeedbackStep (unified : TriCoreScoringResult) (sc : ScoresMap) (praat_name : String) :
    ScoresMap :=
  match unified.getCriteria praat_name with
  | some praat_result =>
    match alookup praat_name sc with
    | some original =>
      aset sc praat_name
        { criteria_name := original.criteria_name
          score := original.score
          max_score := original.max_score
          percentage := original.percentage
          level := original.level
          issues := if praat_result.issues ≠ [] then praat_result.issues else original.issues
          feedback :=
            if praat_result.feedback ≠ "" then praat_result.feedback else original.feedback
          details := original.details }
    | none => sc
  | none => sc

def praatFeedbackUpdate (unified : TriCoreScoringResult) (scores : ScoresMap) : ScoresMap :=
  (["pronunciation", "fluency"]).foldl (praatFeedbackStep unified) scores

/-- The `ScoreDetail` built by the AI-criteria result loop of
`score_with_criteria` (lines 411-424) for a judged criterion the judge
returned: level "ai-scored". -/
def aiScoredDetail (namesVi : List (String × String)) (name : String)
    (criteria_score : CriteriaScore) : ScoreDetail :=
  let percentage :=
    if criteria_score.max_score > 0 then
      criteria_score.score / criteria_score.max_score * 100
    else 0
  { criteria_name := (alookup name namesVi).getD name
    score := criteria_score.score
    max_score := criteria_score.max_score
    percentage := round1 percentage
    level := "ai-scored"
    issues := criteria_score.issues
    feedback := criteria_score.feedback }

/-- The placeholder `ScoreDetail` for a judged criterion the judge omitted. -/
def aiPlaceholderDetail (namesVi : List (String × String)) (unified : TriCoreScoringResult)
    (name : String) (max_score : ℚ) : ScoreDetail :=
  { criteria_name := (alookup name namesVi).getD name
    score := 0
    max_score := max_score
    percentage := 0
    level := "error"
    issues := ["Không có kết quả chấm điểm"]
    feedback :=
      if unified.overall_feedback ≠ "" then unified.overall_feedback
      else "Không thể chấm điểm" }

def aiResultsStep (namesVi : List (String × String)) (unified : TriCoreScoringResult)
    (sc : ScoresMap) (p : String × ℚ) : ScoresMap :=
  match unified.getCriteria p.1 with
  | some criteria_score => aset sc p.1 (aiScoredDetail namesVi p.1 criteria_score)
  | none => aset sc p.1 (aiPlaceholderDetail namesVi unified p.1 p.2)

def aiResultsPhase (aiConfig : List (String × ℚ)) (namesVi : List (String × String))
    (unified : TriCoreScoringResult) (scores : ScoresMap) : ScoresMap :=
  aiConfig.foldl (aiResultsStep namesVi unified) scores

/-- The error fallback of `score_with_criteria`'s outer `except` (lines
438-450), reached when an exception escapes `unified_ai_scoring` itself. -/
def aiDispatchErrorStep (msg : String) (sc : ScoresMap) (c : CriteriaConfig) : ScoresMap :=
  aset sc c.ctype.value
    { criteria_name := c.name_vi
      score := 0
      max_score := c.max_score
      percentage := 0
      level := "error"
      issues := ["Unified scoring error: " ++ msg]
      feedback := "Không thể chấm điểm tiêu chí này" }

def aiDispatchErrorPhase (cfg : TaskConfig) (msg : String) (scores : ScoresMap) : ScoresMap :=
  (ai_criteria cfg).foldl (aiDispatchErrorStep msg) scores

/-- Outcome of the judged-criteria section of `score_with_criteria`: either
`unified_ai_scoring` runs to completion (with its internal call outcome), or
an exception escapes it and the outer `except` fires. -/
inductive JudgeOutcome where
  | call (c : JudgeCall)
  | dispatchError (msg : String)
deriving DecidableEq, Repr

/-- The judged-criteria section of `score_with_criteria` (guarded by
`if ai_criteria and whisper_variants and gemini_intent`; `stt` models the
truthiness of the last two). -/
def aiPhase (cfg : TaskConfig) (stt : Bool) (judge : JudgeOutcome) (scores : ScoresMap) :
    ScoresMap :=
  if ai_criteria cfg = [] ∨ stt = false then scores
  else
    match judge with
    | .dispatchError msg => aiDispatchErrorPhase cfg msg scores
    | .call c =>
      let unified := unified_ai_scoring (aiCriteriaConfigOf cfg) (praatPreOf scores) c
      aiResultsPhase (aiCriteriaConfigOf cfg) (criteriaNamesViOf cfg) unified
        (praatFeedbackUpdate unified scores)

/-- `score_with_criteria`. -/
def score_with_criteria (cfg : TaskConfig) (features : FeatureMap) (stt : Bool)
    (judge : JudgeOutcome) : ScoresMap :=
  aiPhase cfg stt judge (praatPhase cfg features)

/-! ## app/api/v1/scoring.py — full_score_audio -/

/-- `RawFeaturesResponse` (the acoustic extraction adapter's result), with the
features already dumped to the dict the scorers consume
(`raw_result.features.model_dump()`). -/
structure RawFeaturesResponse where
  success : Bool
  features : Option FeatureMap := none
  error_message : Option String := none
deriving Repr

/-- The modelled `FullScoreResponse`: the fields the claims are about.
Request metadata (`task_info`, `stt`, word analysis, `processing_time`) is
not modelled.  Note the response model has no `partial` field. -/
structure FullScoreResponse where
  success : Bool
  scores : ScoresMap
  total_score : ℚ
  max_total_score : ℚ
  total_percentage : ℚ
  error_message : Option String := none
deriving Repr

/-- `full_score_audio` from the point where STT and Praat extraction have
completed: the Praat-result check (lines 592-600) aborts unconditionally on
extraction failure; otherwise the criteria are scored and totals are computed
over exactly the entries of the `scores` dict (lines 683-699). -/
def full_score_audio (cfg : TaskConfig) (raw : RawFeaturesResponse) (stt : Bool)
    (judge : JudgeOutcome) : FullScoreResponse :=
  match raw.success, raw.features with
  | true, some features =>
    let scores := score_with_criteria cfg features stt judge
    let total_score := (scores.map fun p => p.2.score).sum
    let max_total := (scores.map fun p => p.2.max_score).sum
    let total_pct := if max_total > 0 then total_score / max_total * 100 else 0
    { success := true
      scores := scores
      total_score := round2 total_score
      max_total_score := round2 max_total
      total_percentage := round1 total_pct }
  | _, _ =>
    { success := false
      scores := []
      total_score := 0
      max_total_score := 0
      total_percentage := 0
      error_message := raw.error_message }

/-! ## app/services/praat_service.py — `PraatService._parse_features_file`

The line-level parse of the Praat output file is modelled at the level of the
already-split `key, value` pairs: the distinction the adapter acts on is
whether `float(value_str)` succeeds, or the value is one of the undefined
markers (`undefined`, `--undefined--`, `nan`, `inf`, `-inf`) / unparseable —
both of the latter are coerced to `0.0` in `features_dict`. -/

/-- A raw value string of one `key,value` line of the engine output. -/
inductive RawVal where
  | valid (q : ℚ)
  | invalid
deriving DecidableEq, Repr

/-- The value stored into `features_dict` for a line (undefined markers and
unparseable strings become `0.0`). -/
def rawValParse : RawVal → ℚ
  | .valid q => q
  | .invalid => 0

/-- `features_dict` built from the raw lines. -/
def featuresDictOf (raw : List (String × RawVal)) : List (String × ℚ) :=
  raw.map fun p => (p.1, rawValParse p.2)

/-- The nested `safe_get(key, default, min_val, max_val)` helper. -/
def safeGet (d : List (String × ℚ)) (key : String) (dflt : ℚ) (minVal maxVal : Option ℚ) : ℚ :=
  let val := match alookup key d with | some v => v | none => dflt
  let val := match minVal with | some m => max m val | none => val
  match maxVal with | some m => min m val | none => val

/-- `AudioFeatures` (app/models/hskk_models.py): the fixed-shape feature
vector, every field populated. -/
structure AudioFeatures where
  duration : ℚ
  pitch_mean : ℚ
  pitch_std : ℚ
  pitch_range : ℚ
  pitch_min : ℚ
  pitch_max : ℚ
  pitch_median : ℚ
  pitch_quantile_25 : ℚ
  pitch_quantile_75 : ℚ
  f1_mean : ℚ
  f1_std : ℚ
  f2_mean : ℚ
  f2_std : ℚ
  f3_mean : ℚ
  f3_std : ℚ
  f4_mean : ℚ
  f4_std : ℚ
  intensity_mean : ℚ
  intensity_std : ℚ
  intensity_min : ℚ
  intensity_max : ℚ
  spectral_centroid : ℚ
  spectral_std : ℚ
  spectral_skewness : ℚ
  spectral_kurtosis : ℚ
  hnr_mean : ℚ
  hnr_std : ℚ
  jitter_local : ℚ
  jitter_rap : ℚ
  jitter_ppq5 : ℚ
  shimmer_local : ℚ
  shimmer_apq3 : ℚ
  shimmer_apq5 : ℚ
  shimmer_apq11 : ℚ
  speech_rate : ℚ
  articulation_rate : ℚ
  speech_duration : ℚ
  pause_duration : ℚ
  pause_ratio : ℚ
  num_pauses : ℤ
  mean_pause_duration : ℚ
  cog : ℚ
  slope : ℚ
  spread : ℚ

/-- `PraatService._parse_features_file` after a successful read of the file:
every field populated via `safe_get` with its documented default and optional
clamping range (Python `int(...)` on the clamped non-negative pause count is
`Int.floor`). -/
def parse_features_file (raw : List (String × RawVal)) : AudioFeatures :=
  let fd := featuresDictOf raw
  let duration := safeGet fd "duration" 0.0 (some 0.0) none
  { duration := duration
    pitch_mean := safeGet fd "pitch_mean" 200.0 (some 50.0) (some 500.0)
    pitch_std := safeGet fd "pitch_std" 30.0 (some 0.0) none
    pitch_range := safeGet fd "pitch_range" 100.0 (some 0.0) none
    pitch_min := safeGet fd "pitch_min" 150.0 (some 50.0) (some 500.0)
    pitch_max := safeGet fd "pitch_max" 250.0 (some 50.0) (some 500.0)
    pitch_median := safeGet fd "pitch_median" 200.0 (some 50.0) (some 500.0)
    pitch_quantile_25 := safeGet fd "pitch_quantile_25" 180.0 (some 50.0) (some 500.0)
    pitch_quantile_75 := safeGet fd "pitch_quantile_75" 220.0 (some 50.0) (some 500.0)
    f1_mean := safeGet fd "f1_mean" 500.0 (some 200.0) (some 1000.0)
    f1_std := safeGet fd "f1_std" 50.0 (some 0.0) none
    f2_mean := safeGet fd "f2_mean" 1500.0 (some 800.0) (some 3000.0)
    f2_std := safeGet fd "f2_std" 100.0 (some 0.0) none
    f3_mean := safeGet fd "f3_mean" 2500.0 (some 1500.0) (some 4000.0)
    f3_std := safeGet fd "f3_std" 150.0 (some 0.0) none
    f4_mean := safeGet fd "f4_mean" 3500.0 (some 2500.0) (some 5000.0)
    f4_std := safeGet fd "f4_std" 200.0 (some 0.0) none
    intensity_mean := safeGet fd "intensity_mean" 60.0 (some 0.0) (some 100.0)
    intensity_std := safeGet fd "intensity_std" 5.0 (some 0.0) none
    intensity_min := safeGet fd "intensity_min" 40.0 (some 0.0) (some 100.0)
    intensity_max := safeGet fd "intensity_max" 80.0 (some 0.0) (some 100.0)
    spectral_centroid := safeGet fd "spectral_centroid" 1000.0 (some 100.0) none
    spectral_std := safeGet fd "spectral_std" 500.0 (some 0.0) none
    spectral_skewness := safeGet fd "spectral_skewness" 0.0 none none
    spectral_kurtosis := safeGet fd "spectral_kurtosis" 3.0 none none
    hnr_mean := safeGet fd "hnr_mean" 20.0 (some 0.0) (some 40.0)
    hnr_std := safeGet fd "hnr_std" 2.0 (some 0.0) none
    jitter_local := safeGet fd "jitter_local" 0.01 (some 0.0) (some 0.1)
    jitter_rap := safeGet fd "jitter_rap" 0.01 (some 0.0) (some 0.1)
    jitter_ppq5 := safeGet fd "jitter_ppq5" 0.01 (some 0.0) (some 0.1)
    shimmer_local := safeGet fd "shimmer_local" 0.1 (some 0.0) (some 1.0)
    shimmer_apq3 := safeGet fd "shimmer_apq3" 0.1 (some 0.0) (some 1.0)
    shimmer_apq5 := safeGet fd "shimmer_apq5" 0.1 (some 0.0) (some 1.0)
    shimmer_apq11 := safeGet fd "shimmer_apq11" 0.1 (some 0.0) (some 1.0)
    speech_rate := safeGet fd "speech_rate" 180.0 (some 0.0) none
    articulation_rate := safeGet fd "articulation_rate" 200.0 (some 0.0) none
    speech_duration := safeGet fd "speech_duration" duration (some 0.0) (some duration)
    pause_duration := safeGet fd "pause_duration" 0.0 (some 0.0) none
    pause_ratio := safeGet fd "pause_ratio" 0.1 (some 0.0) (some 1.0)
    num_pauses := ⌊safeGet fd "num_pauses" 0 (some 0) none⌋
    mean_pause_duration := safeGet fd "mean_pause_duration" 0.0 (some 0.0) none
    cog := safeGet fd "cog" 1000.0 (some 0.0) none
    slope := safeGet fd "slope" 0.0 none none
    spread := safeGet fd "spread" 0.0 none none }

/-! ## Concrete inputs used by the verification -/

/-- The spec's pronunciation worked example: `hnr=22, jitter=0.008, shimmer=0.04`. -/
def pronExampleData : FeatureMap :=
  [("hnr_mean", 22), ("jitter_local", 0.008), ("shimmer_local", 0.04)]

/-- A feature vector whose HNR falls in the acceptable band `[10, 15)` while
jitter and shimmer stay in their excellent bands. -/
def hnrAcceptableData : FeatureMap :=
  [("hnr_mean", 12), ("jitter_local", 0.008), ("shimmer_local", 0.04)]

/-- The spec's fluency worked example: `speech_rate=90`, `pause_ratio=0.40`,
remaining metrics in their normal bands. -/
def fluencyExampleData : FeatureMap :=
  [("speech_rate", 90), ("pause_ratio", 0.40), ("articulation_rate", 90),
   ("num_pauses", 2), ("mean_pause_duration", 0.2), ("duration", 30)]

/-- A task plan with no acoustic-sourced criterion (constructible with the
source's own `TaskConfig` dataclass; no such plan is registered). -/
def NO_ACOUSTIC_CONFIG : TaskConfig :=
  { task_code := "TEST0", task_name := "judged only", exam_level := "101"
    level_name := "beginner", question_count := 1, points_per_question := 1.0
    total_points := 1.0
    criteria :=
      [{ ctype := .task_achievement, source := .ai, max_score := 1.0, name_vi := "t" }] }

/-- A parsed judge response that scores the grammar criterion at its maximum. -/
def fullMarksJudgeDict : JudgeDict :=
  { entries := [("grammar", { score := some 0.5, feedback := some "ok" })]
    overall_feedback := some "done" }

/-- A parsed judge response that returns tampered scores for the two acoustic
criteria and a grammar score. -/
def tamperedJudgeDict : JudgeDict :=
  { entries :=
      [("pronunciation", { score := some 99, max_score := some 100, feedback := some "p" }),
       ("fluency", { score := some 98, max_score := some 100, feedback := some "f" }),
       ("grammar", { score := some 0.25, feedback := some "g" })]
    overall_feedback := some "tampered" }

/-- The feature vector the adapter produces when the engine output has no
usable line: every field at its documented default. -/
def defaultAudioFeatures : AudioFeatures :=
  { duration := 0, pitch_mean := 200, pitch_std := 30, pitch_range := 100, pitch_min := 150
    pitch_max := 250, pitch_median := 200, pitch_quantile_25 := 180, pitch_quantile_75 := 220
    f1_mean := 500, f1_std := 50, f2_mean := 1500, f2_std := 100, f3_mean := 2500, f3_std := 150
    f4_mean := 3500, f4_std := 200, intensity_mean := 60, intensity_std := 5
    intensity_min := 40, intensity_max := 80, spectral_centroid := 1000, spectral_std := 500
    spectral_skewness := 0, spectral_kurtosis := 3, hnr_mean := 20, hnr_std := 2
    jitter_local := 0.01, jitter_rap := 0.01, jitter_ppq5 := 0.01, shimmer_local := 0.1
    shimmer_apq3 := 0.1, shimmer_apq5 := 0.1, shimmer_apq11 := 0.1, speech_rate := 180
    articulation_rate := 200, speech_duration := 0, pause_duration := 0, pause_ratio := 0.1
    num_pauses := 0, mean_pause_duration := 0, cog := 1000, slope := 0, spread := 0 }

/-- A minimal plan with a single acoustic criterion, used to instantiate the
immutability theorem. -/
def PRON_ONLY_CONFIG : TaskConfig :=
  { task_code := "TEST1", task_name := "acoustic only", exam_level := "101"
    level_name := "beginner", question_count := 1, points_per_question := 1.0
    total_points := 1.0
    criteria :=
      [{ ctype := .pronunciation, source := .praat, max_score := 10, name_vi := "Phát âm" }] }

/-- A minimal plan with a single judged criterion. -/
def GRAMMAR_ONLY_CONFIG : TaskConfig :=
  { task_code := "TEST2", task_name := "judged only", exam_level := "101"
    level_name := "beginner", question_count := 1, points_per_question := 1.0
    total_points := 1.0
    criteria :=
      [{ ctype := .grammar, source := .ai, max_score := 4, name_vi := "Ngữ pháp" }] }

/-- A judge response granting the grammar criterion more than its maximum
(the dispatcher takes `min(judge_score, max_score)`, here full marks). -/
def grammarFullJudgeDict : JudgeDict :=
  { entries := [("grammar", { score := some 7, feedback := some "ok" })]
    overall_feedback := some "done" }

/-- The last criterion of the given type in a criteria list (when a type
occurs twice, the later loop iteration's dict write wins). -/
def lastOfType (t : CriteriaType) : List CriteriaConfig → Option CriteriaConfig
  | [] => none
  | c :: rest =>
    match lastOfType t rest with
    | some c' => some c'
    | none => if c.ctype = t then some c else none

/-- The last value bound to a key in an association list. -/
def lastValOf {α : Type} (key : String) : List (String × α) → Option α
  | [] => none
  | p :: rest =>
    match lastValOf key rest with
    | some v => some v
    | none => if p.1 = key then some p.2 else none

/-! # Helper lemmas -/

theorem alookup_mem {α : Type} {key : String} {v : α} :
    ∀ {l : List (String × α)}, alookup key l = some v → (key, v) ∈ l
  | [], h => by simp [alookup] at h
  | (k, w) :: rest, h => by
    rw [alookup] at h
    split_ifs at h with hk
    · cases h
      subst hk
      exact List.mem_cons_self _ _
    · exact List.mem_cons_of_mem _ (alookup_mem h)

theorem alookup_aset_self {α : Type} (l : List (String × α)) (key : String) (v : α) :
    alookup key (aset l key v) = some v := by
  induction l with
  | nil => simp [aset, alookup]
  | cons p rest ih =>
    obtain ⟨k, w⟩ := p
    rw [aset]
    split_ifs with hk
    · simp [alookup]
    · rw [alookup, if_neg hk]
      exact ih

theorem alookup_aset_ne {α : Type} (l : List (String × α)) (key key' : String) (v : α)
    (h : key' ≠ key) : alookup key' (aset l key v) = alookup key' l := by
  have hne : ¬ key = key' := fun hh => h hh.symm
  induction l with
  | nil =>
    show alookup key' [(key, v)] = none
    rw [alookup, if_neg hne, alookup]
  | cons p rest ih =>
    obtain ⟨k, w⟩ := p
    rw [aset]
    split_ifs with hk
    · subst hk
      rw [alookup, alookup, if_neg hne, if_neg hne]
    · rw [alookup, alookup]
      split_ifs with hk2
      · rfl
      · exact ih

theorem alookup_map {α β : Type} (f : α → β) (key : String) :
    ∀ (l : List (String × α)),
      alookup key (l.map fun p => (p.1, f p.2)) = (alookup key l).map f
  | [] => by simp [alookup]
  | (k, w) :: rest => by
    simp only [List.map_cons, alookup]
    split_ifs with hk
    · rfl
    · exact alookup_map f key rest

theorem alookup_append {α : Type} (key : String) :
    ∀ (l1 l2 : List (String × α)),
      alookup key (l1 ++ l2) =
        match alookup key l1 with
        | some v => some v
        | none => alookup key l2
  | [], l2 => by simp [alookup]
  | (k, w) :: rest, l2 => by
    simp only [List.cons_append, alookup]
    split_ifs with hk
    · rfl
    · exact alookup_append key rest l2

theorem getD_eq_of_lookup_none (data : FeatureMap) (key : String) (d : ℚ)
    (h : alookup key data = none) : data.getD key d = d := by
  unfold FeatureMap.getD
  rw [h]

theorem getD_append (pre data : FeatureMap) (key : String) (d : ℚ) :
    FeatureMap.getD (pre ++ data) key d =
      match alookup key pre with
      | some v => v
      | none => FeatureMap.getD data key d := by
  unfold FeatureMap.getD
  rw [alookup_append]
  cases alookup key pre <;> rfl

theorem round2_zero : round2 0 = 0 := by
  unfold round2
  norm_num

theorem round2_mono {x y : ℚ} (h : x ≤ y) : round2 x ≤ round2 y := by
  unfold round2
  have hr : round (x * 100) ≤ round (y * 100) := by
    rw [round_eq, round_eq]
    exact Int.floor_le_floor (by linarith)
  have : ((round (x * 100) : ℤ) : ℚ) ≤ ((round (y * 100) : ℤ) : ℚ) := by exact_mod_cast hr
  linarith

theorem round2_nonneg {x : ℚ} (h : 0 ≤ x) : 0 ≤ round2 x := by
  have := round2_mono h
  rw [round2_zero] at this
  exact this

theorem round2_bounds {x m : ℚ} (h0 : 0 ≤ x) (h1 : x ≤ m) (hm : round2 m = m) :
    0 ≤ round2 x ∧ round2 x ≤ m :=
  ⟨round2_nonneg h0, hm ▸ round2_mono h1⟩

theorem hnrCheck_ded_nonneg (x : ℚ) : 0 ≤ (hnrCheck x).2.1 := by
  unfold hnrCheck
  split_ifs <;> norm_num [DEDUCTION_MINOR, DEDUCTION_MODERATE, DEDUCTION_SEVERE]

theorem jitterCheck_ded_nonneg (x : ℚ) : 0 ≤ (jitterCheck x).2.1 := by
  unfold jitterCheck
  split_ifs <;> norm_num [DEDUCTION_MINOR, DEDUCTION_MODERATE, DEDUCTION_MAJOR]

theorem shimmerCheck_ded_nonneg (x : ℚ) : 0 ≤ (shimmerCheck x).2.1 := by
  unfold shimmerCheck
  split_ifs <;> norm_num [DEDUCTION_MINOR, DEDUCTION_MODERATE, DEDUCTION_MAJOR]

theorem pronunciationDeductions_nonneg (h j s : ℚ) : 0 ≤ pronunciationDeductions h j s := by
  unfold pronunciationDeductions
  have := hnrCheck_ded_nonneg h
  have := jitterCheck_ded_nonneg j
  have := shimmerCheck_ded_nonneg s
  linarith

theorem pronunciationRaw_bounds (m h j s : ℚ) (hm : 0 ≤ m) :
    0 ≤ pronunciationRaw m h j s ∧ pronunciationRaw m h j s ≤ m := by
  unfold pronunciationRaw
  refine ⟨le_max_left _ _, max_le hm ?_⟩
  have hd := pronunciationDeductions_nonneg h j s
  nlinarith

theorem fluencyMultiplier_bounds (n : ℕ) :
    0 ≤ fluencyMultiplier n ∧ fluencyMultiplier n ≤ 1 := by
  unfold fluencyMultiplier
  split_ifs <;>
    norm_num [SCORE_MULTIPLIER_EXCELLENT, SCORE_MULTIPLIER_GOOD, SCORE_MULTIPLIER_ACCEPTABLE,
      SCORE_MULTIPLIER_POOR]

theorem nestedGetD_ok (t : List (String × List (String × ℚ)))
    (hT : ∀ p ∈ t, ∀ q ∈ p.2, 0 ≤ q.2 ∧ round2 q.2 = q.2) (k1 k2 : String) :
    0 ≤ nestedGetD t k1 k2 1 ∧ round2 (nestedGetD t k1 k2 1) = nestedGetD t k1 k2 1 := by
  unfold nestedGetD
  cases h1 : alookup k1 t with
  | none => exact ⟨by norm_num, by norm_num [round2, round_eq]⟩
  | some inner =>
    dsimp only
    cases h2 : alookup k2 inner with
    | none => exact ⟨by norm_num, by norm_num [round2, round_eq]⟩
    | some v =>
      dsimp only
      exact hT _ (alookup_mem h1) _ (alookup_mem h2)

theorem pron_table_ok :
    ∀ p ∈ PRONUNCIATION_MAX_SCORES, ∀ q ∈ p.2, 0 ≤ q.2 ∧ round2 q.2 = q.2 := by
  intro p hp q hq
  fin_cases hp <;> fin_cases hq <;> exact ⟨by norm_num, by norm_num [round2, round_eq]⟩

theorem flu_table_ok :
    ∀ p ∈ FLUENCY_MAX_SCORES, ∀ q ∈ p.2, 0 ≤ q.2 ∧ round2 q.2 = q.2 := by
  intro p hp q hq
  fin_cases hp <;> fin_cases hq <;> exact ⟨by norm_num, by norm_num [round2, round_eq]⟩

theorem lastOfType_mem {t : CriteriaType} :
    ∀ {l : List CriteriaConfig} {c : CriteriaConfig},
      lastOfType t l = some c → c ∈ l ∧ c.ctype = t
  | [], c, h => by simp [lastOfType] at h
  | c0 :: rest, c, h => by
    rw [lastOfType] at h
    cases hr : lastOfType t rest with
    | some c' =>
      rw [hr] at h
      injection h with h
      subst h
      have := lastOfType_mem hr
      exact ⟨List.mem_cons_of_mem _ this.1, this.2⟩
    | none =>
      rw [hr] at h
      dsimp only at h
      split_ifs at h with hc
      injection h with h
      subst h
      exact ⟨List.mem_cons_self _ _, hc⟩

theorem lastValOf_isSome_of_mem {α : Type} {key : String} {v : α} :
    ∀ {l : List (String × α)}, (key, v) ∈ l → ∃ w, lastValOf key l = some w
  | [], h => absurd h (List.not_mem_nil _)
  | p :: rest, h => by
    rw [lastValOf]
    cases hr : lastValOf key rest with
    | some w => exact ⟨w, rfl⟩
    | none =>
      rcases List.mem_cons.mp h with heq | hmem
      · refine ⟨p.2, ?_⟩
        dsimp only
        rw [if_pos (by rw [← heq])]
      · obtain ⟨w, hw⟩ := lastValOf_isSome_of_mem hmem
        rw [hw] at hr
        cases hr

theorem praatFold_lookup_pron (features : FeatureMap) (l : List CriteriaConfig) :
    ∀ acc : ScoresMap,
      alookup "pronunciation" (l.foldl (praatStep features) acc) =
        match lastOfType CriteriaType.pronunciation l with
        | some c =>
          some (scoring_result_to_detail (pronunciationScoreCore c.max_score features) c.name_vi)
        | none => alookup "pronunciation" acc := by
  induction l with
  | nil => intro acc; rfl
  | cons c rest ih =>
    intro acc
    rw [List.foldl_cons, ih, lastOfType]
    cases hr : lastOfType CriteriaType.pronunciation rest with
    | some c' => rfl
    | none =>
      dsimp only
      by_cases hc : c.ctype = CriteriaType.pronunciation
      · rw [if_pos hc]
        unfold praatStep
        rw [hc]
        exact alookup_aset_self _ _ _
      · rw [if_neg hc]
        unfold praatStep
        cases hct : c.ctype <;>
          first
            | exact absurd hct hc
            | exact alookup_aset_ne _ _ _ _ (by decide)
            | rfl

theorem praatFold_lookup_flu (features : FeatureMap) (l : List CriteriaConfig) :
    ∀ acc : ScoresMap,
      alookup "fluency" (l.foldl (praatStep features) acc) =
        match lastOfType CriteriaType.fluency l with
        | some c =>
          some (scoring_result_to_detail (fluencyScoreCore c.max_score features) c.name_vi)
        | none => alookup "fluency" acc := by
  induction l with
  | nil => intro acc; rfl
  | cons c rest ih =>
    intro acc
    rw [List.foldl_cons, ih, lastOfType]
    cases hr : lastOfType CriteriaType.fluency rest with
    | some c' => rfl
    | none =>
      dsimp only
      by_cases hc : c.ctype = CriteriaType.fluency
      · rw [if_pos hc]
        unfold praatStep
        rw [hc]
        exact alookup_aset_self _ _ _
      · rw [if_neg hc]
        unfold praatStep
        cases hct : c.ctype <;>
          first
            | exact absurd hct hc
            | exact alookup_aset_ne _ _ _ _ (by decide)
            | rfl

theorem praatFeedbackStep_fields (u : TriCoreScoringResult) (sc : ScoresMap) (name key : String)
    (d : ScoreDetail) (h : alookup key (praatFeedbackStep u sc name) = some d) :
    ∃ d0, alookup key sc = some d0 ∧ d.score = d0.score ∧ d.max_score = d0.max_score ∧
      d.percentage = d0.percentage ∧ d.level = d0.level ∧ d.details = d0.details ∧
      d.criteria_name = d0.criteria_name := by
  unfold praatFeedbackStep at h
  cases hg : u.getCriteria name with
  | none =>
    rw [hg] at h
    exact ⟨d, h, rfl, rfl, rfl, rfl, rfl, rfl⟩
  | some pr =>
    rw [hg] at h
    cases ho : alookup name sc with
    | none =>
      rw [ho] at h
      exact ⟨d, h, rfl, rfl, rfl, rfl, rfl, rfl⟩
    | some original =>
      rw [ho] at h
      by_cases hk : key = name
      · subst hk
        rw [alookup_aset_self] at h
        injection h with h
        subst h
        exact ⟨original, ho, rfl, rfl, rfl, rfl, rfl, rfl⟩
      · rw [alookup_aset_ne _ _ _ _ hk] at h
        exact ⟨d, h, rfl, rfl, rfl, rfl, rfl, rfl⟩

theorem praatFeedbackUpdate_fields (u : TriCoreScoringResult) (sc : ScoresMap) (key : String)
    (d : ScoreDetail) (h : alookup key (praatFeedbackUpdate u sc) = some d) :
    ∃ d0, alookup key sc = some d0 ∧ d.score = d0.score ∧ d.max_score = d0.max_score ∧
      d.percentage = d0.percentage ∧ d.level = d0.level ∧ d.details = d0.details ∧
      d.criteria_name = d0.criteria_name := by
  have h2 : praatFeedbackUpdate u sc =
      praatFeedbackStep u (praatFeedbackStep u sc "pronunciation") "fluency" := rfl
  rw [h2] at h
  obtain ⟨d1, h1, e1, e2, e3, e4, e5, e6⟩ := praatFeedbackStep_fields _ _ _ _ _ h
  obtain ⟨d0, h0, f1, f2, f3, f4, f5, f6⟩ := praatFeedbackStep_fields _ _ _ _ _ h1
  exact ⟨d0, h0, e1.trans f1, e2.trans f2, e3.trans f3, e4.trans f4, e5.trans f5, e6.trans f6⟩

theorem praatFeedbackUpdate_id (u : TriCoreScoringResult) (sc : ScoresMap)
    (hu : ∀ name, u.getCriteria name = none) : praatFeedbackUpdate u sc = sc := by
  have h1 : praatFeedbackStep u sc "pronunciation" = sc := by
    unfold praatFeedbackStep
    rw [hu]
  show praatFeedbackStep u (praatFeedbackStep u sc "pronunciation") "fluency" = sc
  rw [h1]
  unfold praatFeedbackStep
  rw [hu]

theorem aiDispatchFold_lookup_ne (msg key : String) (l : List CriteriaConfig)
    (hl : ∀ c ∈ l, c.ctype.value ≠ key) :
    ∀ sc : ScoresMap, alookup key (l.foldl (aiDispatchErrorStep msg) sc) = alookup key sc := by
  induction l with
  | nil => intro sc; rfl
  | cons c rest ih =>
    intro sc
    rw [List.foldl_cons, ih (fun c' hc' => hl c' (List.mem_cons_of_mem _ hc'))]
    unfold aiDispatchErrorStep
    exact alookup_aset_ne _ _ _ _ (fun he => hl c (List.mem_cons_self _ _) he.symm)

theorem aiResultsFold_lookup_ne (namesVi : List (String × String)) (u : TriCoreScoringResult)
    (key : String) (l : List (String × ℚ)) (hl : ∀ p ∈ l, p.1 ≠ key) :
    ∀ sc : ScoresMap, alookup key (l.foldl (aiResultsStep namesVi u) sc) = alookup key sc := by
  induction l with
  | nil => intro sc; rfl
  | cons p rest ih =>
    intro sc
    rw [List.foldl_cons, ih (fun p' hp' => hl p' (List.mem_cons_of_mem _ hp'))]
    unfold aiResultsStep
    have hne : key ≠ p.1 := fun he => hl p (List.mem_cons_self _ _) he.symm
    cases u.getCriteria p.1 <;> exact alookup_aset_ne _ _ _ _ hne

theorem aiResultsFold_level (namesVi : List (String × String)) (u : TriCoreScoringResult)
    (key : String) (l : List (String × ℚ)) :
    ∀ (sc : ScoresMap) (d : ScoreDetail),
      alookup key (l.foldl (aiResultsStep namesVi u) sc) = some d →
      d.level = "ai-scored" ∨ d.level = "error" ∨ alookup key sc = some d := by
  induction l with
  | nil => intro sc d h; exact Or.inr (Or.inr h)
  | cons p rest ih =>
    intro sc d h
    rw [List.foldl_cons] at h
    rcases ih _ _ h with h1 | h2 | h3
    · exact Or.inl h1
    · exact Or.inr (Or.inl h2)
    · unfold aiResultsStep at h3
      by_cases hk : key = p.1
      · subst hk
        cases hg : u.getCriteria p.1 with
        | some cs =>
          rw [hg, alookup_aset_self] at h3
          injection h3 with h3
          subst h3
          exact Or.inl rfl
        | none =>
          rw [hg, alookup_aset_self] at h3
          injection h3 with h3
          subst h3
          exact Or.inr (Or.inl rfl)
      · cases hg : u.getCriteria p.1 with
        | some cs =>
          rw [hg, alookup_aset_ne _ _ _ _ hk] at h3
          exact Or.inr (Or.inr h3)
        | none =>
          rw [hg, alookup_aset_ne _ _ _ _ hk] at h3
          exact Or.inr (Or.inr h3)

theorem aiDispatchFold_level (msg key : String) (l : List CriteriaConfig) :
    ∀ (sc : ScoresMap) (d : ScoreDetail),
      alookup key (l.foldl (aiDispatchErrorStep msg) sc) = some d →
      d.level = "error" ∨ alookup key sc = some d := by
  induction l with
  | nil => intro sc d h; exact Or.inr h
  | cons c rest ih =>
    intro sc d h
    rw [List.foldl_cons] at h
    rcases ih _ _ h with h1 | h2
    · exact Or.inl h1
    · unfold aiDispatchErrorStep at h2
      by_cases hk : key = c.ctype.value
      · subst hk
        rw [alookup_aset_self] at h2
        injection h2 with h2
        subst h2
        exact Or.inl rfl
      · rw [alookup_aset_ne _ _ _ _ hk] at h2
        exact Or.inr h2

theorem aiResultsFold_placeholder (namesVi : List (String × String)) (u : TriCoreScoringResult)
    (key : String) (hu : ∀ name, u.getCriteria name = none) (l : List (String × ℚ)) :
    ∀ sc : ScoresMap,
      alookup key (l.foldl (aiResultsStep namesVi u) sc) =
        match lastValOf key l with
        | some ms => some (aiPlaceholderDetail namesVi u key ms)
        | none => alookup key sc := by
  induction l with
  | nil => intro sc; rfl
  | cons p rest ih =>
    intro sc
    rw [List.foldl_cons, ih, lastValOf]
    cases hr : lastValOf key rest with
    | some ms => rfl
    | none =>
      dsimp only
      unfold aiResultsStep
      rw [hu p.1]
      by_cases hk : p.1 = key
      · rw [if_pos hk]
        subst hk
        exact alookup_aset_self _ _ _
      · rw [if_neg hk]
        exact alookup_aset_ne _ _ _ _ (fun he => hk he.symm)

theorem unified_fails_getCriteria (cfgC : List (String × ℚ))
    (praatS : Option (List (String × PraatPre))) (msg name : String) :
    (unified_ai_scoring cfgC praatS (JudgeCall.fails msg)).getCriteria name = none := by
  show TriCoreScoringResult.getCriteria { overall_feedback := "Lỗi khi chấm điểm: " ++ msg } name
    = none
  unfold TriCoreScoringResult.getCriteria
  split_ifs <;> rfl

theorem unified_fails_overall (cfgC : List (String × ℚ))
    (praatS : Option (List (String × PraatPre))) (msg : String) :
    (unified_ai_scoring cfgC praatS (JudgeCall.fails msg)).overall_feedback =
      "Lỗi khi chấm điểm: " ++ msg := rfl

theorem string_append_ne_empty (s t : String) (hs : s.length ≠ 0) : s ++ t ≠ "" := by
  intro h
  have hl := congrArg String.length h
  rw [String.length_append] at hl
  simp at hl
  exact hs hl.1

theorem ctype_value_ne_pron {t : CriteriaType} (h : t ≠ CriteriaType.pronunciation) :
    t.value ≠ "pronunciation" := by
  cases t
  case pronunciation => exact absurd rfl h
  all_goals decide

theorem ctype_value_ne_flu {t : CriteriaType} (h : t ≠ CriteriaType.fluency) :
    t.value ≠ "fluency" := by
  cases t
  case fluency => exact absurd rfl h
  all_goals decide

theorem ai_criteria_mem (cfg : TaskConfig) {c : CriteriaConfig} (hc : c ∈ ai_criteria cfg) :
    c ∈ cfg.criteria ∧ c.source = DataSource.ai := by
  unfold ai_criteria at hc
  have := List.mem_filter.mp hc
  exact ⟨this.1, by simpa using this.2⟩

theorem praat_criteria_mem (cfg : TaskConfig) {c : CriteriaConfig}
    (hc : c ∈ praat_criteria cfg) : c ∈ cfg.criteria ∧ c.source = DataSource.praat := by
  unfold praat_criteria at hc
  have := List.mem_filter.mp hc
  exact ⟨this.1, by simpa using this.2⟩

/-- Under the registry separation hypothesis, every key of the AI criteria
config differs from the two acoustic keys. -/
theorem aiConfig_keys_ne (cfg : TaskConfig)
    (hsep : ∀ c ∈ cfg.criteria, c.source = DataSource.ai →
      c.ctype ≠ CriteriaType.pronunciation ∧ c.ctype ≠ CriteriaType.fluency) :
    ∀ p ∈ aiCriteriaConfigOf cfg, p.1 ≠ "pronunciation" ∧ p.1 ≠ "fluency" := by
  intro p hp
  unfold aiCriteriaConfigOf at hp
  obtain ⟨c, hc, rfl⟩ := List.mem_map.mp hp
  have hcm := ai_criteria_mem cfg hc
  have hs := hsep c hcm.1 hcm.2
  exact ⟨ctype_value_ne_pron hs.1, ctype_value_ne_flu hs.2⟩

/-- The core preservation fact: whatever the judged-criteria section does, an
entry it leaves at an acoustic key keeps the numeric fields of the entry the
deterministic phase put there. -/
theorem aiPhase_praat_fields (cfg : TaskConfig) (stt : Bool) (judge : JudgeOutcome)
    (sc : ScoresMap) (key : String) (d : ScoreDetail)
    (hkey : key = "pronunciation" ∨ key = "fluency")
    (hsep : ∀ c ∈ cfg.criteria, c.source = DataSource.ai →
      c.ctype ≠ CriteriaType.pronunciation ∧ c.ctype ≠ CriteriaType.fluency)
    (h : alookup key (aiPhase cfg stt judge sc) = some d) :
    ∃ d0, alookup key sc = some d0 ∧ d.score = d0.score ∧ d.max_score = d0.max_score ∧
      d.percentage = d0.percentage ∧ d.level = d0.level ∧ d.details = d0.details ∧
      d.criteria_name = d0.criteria_name := by
  have hkeys : ∀ p ∈ aiCriteriaConfigOf cfg, p.1 ≠ key := by
    intro p hp
    rcases hkey with hk | hk <;> rw [hk]
    · exact (aiConfig_keys_ne cfg hsep p hp).1
    · exact (aiConfig_keys_ne cfg hsep p hp).2
  have hckeys : ∀ c ∈ ai_criteria cfg, c.ctype.value ≠ key := by
    intro c hc
    have hcm := ai_criteria_mem cfg hc
    have hs := hsep c hcm.1 hcm.2
    rcases hkey with hk | hk <;> rw [hk]
    · exact ctype_value_ne_pron hs.1
    · exact ctype_value_ne_flu hs.2
  unfold aiPhase at h
  split_ifs at h with hguard
  · exact ⟨d, h, rfl, rfl, rfl, rfl, rfl, rfl⟩
  · cases judge with
    | dispatchError msg =>
      unfold aiDispatchErrorPhase at h
      rw [aiDispatchFold_lookup_ne msg key _ hckeys] at h
      exact ⟨d, h, rfl, rfl, rfl, rfl, rfl, rfl⟩
    | call c =>
      unfold aiResultsPhase at h
      rw [aiResultsFold_lookup_ne _ _ key _ hkeys] at h
      exact praatFeedbackUpdate_fields _ _ _ _ h

/-! # Claim theorems -/

/-- C3: Fan-out completeness — for every combination of backend outcomes the
transcription fan-out returns exactly one variant per configured backend
(three: Whisper, FunASR, Gemini) in that fixed order; a backend that raises
contributes its error-marker text in its own slot rather than shortening the
list, and each slot depends only on its own backend's outcome, so one
backend's failure cannot corrupt the others' results. -/
theorem fanout_completeness (w : WhisperOutcome) (f : FunasrOutcome) (g : GeminiOutcome) :
    (get_multi_model_stt w f g).length = 3
  ∧ get_multi_model_stt w f g =
      [transcribe_with_whisper w, transcribe_with_funasr f, transcribe_with_gemini_stt g]
  ∧ (∀ e, transcribe_with_whisper (.raises e) = "[Whisper Error: " ++ e ++ "]")
  ∧ (∀ e, transcribe_with_funasr (.raises e) = "[FunASR Error: " ++ e ++ "]")
  ∧ transcribe_with_funasr .modelNotLoaded = "[FunASR Error: Model not loaded]"
  ∧ (∀ e, transcribe_with_gemini_stt (.raises e) = "[Gemini STT Error: " ++ e ++ "]") :=
  ⟨rfl, rfl, fun _ => rfl, fun _ => rfl, rfl, fun _ => rfl⟩

/-- C4: Score bound invariant — for every feature mapping (including
out-of-range values), every non-negative two-decimal max score (hence every
exam level and task of the max-score tables, and every registry criterion),
both acoustic scorers return `0 ≤ score ≤ max_score`; an excessive deduction
sum is clamped, never propagated as an error. -/
theorem score_bound_invariant (m : ℚ) (examLevel task : String) (data : FeatureMap)
    (hm : 0 ≤ m) (hround : round2 m = m) :
    (0 ≤ (pronunciationScoreCore m data).score ∧
      (pronunciationScoreCore m data).score ≤ (pronunciationScoreCore m data).max_score)
  ∧ (0 ≤ (fluencyScoreCore m data).score ∧
      (fluencyScoreCore m data).score ≤ (fluencyScoreCore m data).max_score)
  ∧ (0 ≤ (pronunciationScore examLevel task data).score ∧
      (pronunciationScore examLevel task data).score ≤
        (pronunciationScore examLevel task data).max_score)
  ∧ (0 ≤ (fluencyScore examLevel task data).score ∧
      (fluencyScore examLevel task data).score ≤ (fluencyScore examLevel task data).max_score) := by
  have mainP : ∀ m' : ℚ, 0 ≤ m' → round2 m' = m' →
      0 ≤ (pronunciationScoreCore m' data).score ∧
        (pronunciationScoreCore m' data).score ≤ (pronunciationScoreCore m' data).max_score := by
    intro m' h0 h1
    have hb := pronunciationRaw_bounds m' (data.getD "hnr_mean" 0) (data.getD "jitter_local" 1)
      (data.getD "shimmer_local" 1) h0
    exact round2_bounds hb.1 hb.2 h1
  have mainF : ∀ m' : ℚ, 0 ≤ m' → round2 m' = m' →
      0 ≤ (fluencyScoreCore m' data).score ∧
        (fluencyScoreCore m' data).score ≤ (fluencyScoreCore m' data).max_score := by
    intro m' h0 h1
    have hmult := fluencyMultiplier_bounds
      (fluencyIssuesOf (data.getD "speech_rate" 0) (data.getD "pause_ratio" 1)
        (data.getD "num_pauses" 0) (data.getD "mean_pause_duration" 0)
        (data.getD "articulation_rate" 0) (data.getD "duration" 1)).length
    refine round2_bounds (mul_nonneg h0 hmult.1) ?_ h1
    have hms : (fluencyScoreCore m' data).max_score = m' := rfl
    rw [hms]
    nlinarith [hmult.1, hmult.2]
  have hpt := nestedGetD_ok PRONUNCIATION_MAX_SCORES pron_table_ok examLevel task
  have hft := nestedGetD_ok FLUENCY_MAX_SCORES flu_table_ok examLevel task
  exact ⟨mainP m hm hround, mainF m hm hround, mainP _ hpt.1 hpt.2, mainF _ hft.1 hft.2⟩

/-- C4 witness: the bound invariant at `max_score = 10` on the empty feature
mapping. -/
theorem score_bound_invariant_witness :
    (0 ≤ (10 : ℚ) ∧ round2 10 = 10) ∧
      (0 ≤ (pronunciationScoreCore 10 []).score ∧
        (pronunciationScoreCore 10 []).score ≤ (pronunciationScoreCore 10 []).max_score) :=
  ⟨⟨by norm_num, by norm_num [round2, round_eq]⟩,
    (score_bound_invariant 10 "beginner" "task1" [] (by norm_num)
      (by norm_num [round2, round_eq])).1⟩

theorem pronExample_eval (m : ℚ) :
    pronunciationScoreCore m pronExampleData =
      pronunciationFromMetrics m 22 (8/1000) (4/100) 0 0 0 0 := by
  unfold pronunciationScoreCore
  simp [pronExampleData, FeatureMap.getD, alookup]
  norm_num

theorem hnrAcceptable_eval (m : ℚ) :
    pronunciationScoreCore m hnrAcceptableData =
      pronunciationFromMetrics m 12 (8/1000) (4/100) 0 0 0 0 := by
  unfold pronunciationScoreCore
  simp [hnrAcceptableData, FeatureMap.getD, alookup]
  norm_num

theorem hnrCheck_ded_cases (x : ℚ) :
    (hnrCheck x).2.1 = 0 ∨ (hnrCheck x).2.1 = 15/100 ∨ (hnrCheck x).2.1 = 30/100 ∨
      (hnrCheck x).2.1 = 50/100 := by
  unfold hnrCheck
  split_ifs <;> norm_num [DEDUCTION_MINOR, DEDUCTION_MODERATE, DEDUCTION_SEVERE]

theorem jitterCheck_ded_cases (x : ℚ) :
    (jitterCheck x).2.1 = 0 ∨ (jitterCheck x).2.1 = 15/100 ∨ (jitterCheck x).2.1 = 25/100 ∨
      (jitterCheck x).2.1 = 35/100 := by
  unfold jitterCheck
  split_ifs <;> norm_num [DEDUCTION_MINOR, DEDUCTION_MODERATE, DEDUCTION_MAJOR]

theorem shimmerCheck_ded_cases (x : ℚ) :
    (shimmerCheck x).2.1 = 0 ∨ (shimmerCheck x).2.1 = 15/100 ∨ (shimmerCheck x).2.1 = 25/100 ∨
      (shimmerCheck x).2.1 = 35/100 := by
  unfold shimmerCheck
  split_ifs <;> norm_num [DEDUCTION_MINOR, DEDUCTION_MODERATE, DEDUCTION_MAJOR]

/-- C5 counterexample: for the input `hnr=12, jitter=0.008, shimmer=0.04`
(jitter and shimmer in their excellent bands, so the HNR band is the only
source of deduction), the scorer returns `7.0` at `max_score=10`, a value not
producible by any single deduction drawn from the tiered constants
`{0, 0.15, 0.25, 0.35, 0.5}` — the HNR acceptable band deducts
`DEDUCTION_MODERATE + 0.05 = 0.30`. -/
theorem pronunciation_tiered_deduction_counterexample :
    (pronunciationScoreCore 10 hnrAcceptableData).score = 7
  ∧ (hnrCheck 12).2.1 = 30/100
  ∧ (jitterCheck (8/1000)).2.1 = 0
  ∧ (shimmerCheck (4/100)).2.1 = 0
  ∧ ¬ ((10:ℚ) * (1 - 0) = 7 ∨ (10:ℚ) * (1 - 15/100) = 7 ∨ (10:ℚ) * (1 - 25/100) = 7 ∨
       (10:ℚ) * (1 - 35/100) = 7 ∨ (10:ℚ) * (1 - 50/100) = 7) := by
  refine ⟨?_, ?_, ?_, ?_, ?_⟩
  · rw [hnrAcceptable_eval]
    norm_num [pronunciationFromMetrics, pronunciationRaw, pronunciationDeductions,
      hnrCheck, jitterCheck, shimmerCheck, HNR_EXCELLENT, HNR_GOOD, HNR_POOR,
      JITTER_EXCELLENT, SHIMMER_EXCELLENT, DEDUCTION_MODERATE, round2, round_eq]
  · norm_num [hnrCheck, HNR_EXCELLENT, HNR_GOOD, HNR_POOR, DEDUCTION_MODERATE]
  · norm_num [jitterCheck, JITTER_EXCELLENT]
  · norm_num [shimmerCheck, SHIMMER_EXCELLENT]
  · norm_num

/-- C5 (amended): the pronunciation scorer starts from `max_score` and sums
one additive deduction per threshold band on HNR, jitter and shimmer, the
possible magnitudes being `{0, 0.15, 0.30, 0.5}` for HNR (the acceptable band
deducts moderate + 0.05 = 0.30) and `{0, 0.15, 0.25, 0.35}` for jitter and
shimmer; the returned score equals
`max_score * (1 - min(deductions, 1))` (the code's `max(0, ·)` clamp is
equivalent to clamping the summed deductions at 1.0 for non-negative max
scores), and for `hnr=22, jitter=0.008, shimmer=0.04` with `max_score=10` the
result is `score=10.0`, level excellent, no issues. -/
theorem pronunciation_scoring_algorithm (m : ℚ) (data : FeatureMap) (hm : 0 ≤ m) :
    ((hnrCheck (data.getD "hnr_mean" 0)).2.1 = 0 ∨
     (hnrCheck (data.getD "hnr_mean" 0)).2.1 = 15/100 ∨
     (hnrCheck (data.getD "hnr_mean" 0)).2.1 = 30/100 ∨
     (hnrCheck (data.getD "hnr_mean" 0)).2.1 = 50/100)
  ∧ ((jitterCheck (data.getD "jitter_local" 1)).2.1 = 0 ∨
     (jitterCheck (data.getD "jitter_local" 1)).2.1 = 15/100 ∨
     (jitterCheck (data.getD "jitter_local" 1)).2.1 = 25/100 ∨
     (jitterCheck (data.getD "jitter_local" 1)).2.1 = 35/100)
  ∧ ((shimmerCheck (data.getD "shimmer_local" 1)).2.1 = 0 ∨
     (shimmerCheck (data.getD "shimmer_local" 1)).2.1 = 15/100 ∨
     (shimmerCheck (data.getD "shimmer_local" 1)).2.1 = 25/100 ∨
     (shimmerCheck (data.getD "shimmer_local" 1)).2.1 = 35/100)
  ∧ (pronunciationScoreCore m data).score =
      round2 (m * (1 - min (pronunciationDeductions (data.getD "hnr_mean" 0)
        (data.getD "jitter_local" 1) (data.getD "shimmer_local" 1)) 1))
  ∧ (pronunciationScoreCore 10 pronExampleData).score = 10
  ∧ (pronunciationScoreCore 10 pronExampleData).level = ScoreLevel.excellent
  ∧ (pronunciationScoreCore 10 pronExampleData).issues = [] := by
  refine ⟨hnrCheck_ded_cases _, jitterCheck_ded_cases _, shimmerCheck_ded_cases _, ?_, ?_, ?_, ?_⟩
  · show round2 (pronunciationRaw m (data.getD "hnr_mean" 0) (data.getD "jitter_local" 1)
      (data.getD "shimmer_local" 1)) = _
    unfold pronunciationRaw
    set d := pronunciationDeductions (data.getD "hnr_mean" 0) (data.getD "jitter_local" 1)
      (data.getD "shimmer_local" 1) with hd
    rcases le_total d 1 with hle | hgt
    · rw [min_eq_left hle, max_eq_right (mul_nonneg hm (by linarith))]
    · rw [min_eq_right hgt]
      have h0 : m * (1 - d) ≤ 0 := by nlinarith
      rw [max_eq_left h0]
      norm_num
  · rw [pronExample_eval]
    norm_num [pronunciationFromMetrics, pronunciationRaw, pronunciationDeductions,
      pronunciationIssues, hnrCheck, jitterCheck, shimmerCheck,
      HNR_EXCELLENT, JITTER_EXCELLENT, SHIMMER_EXCELLENT, round2, round_eq]
  · rw [pronExample_eval]
    norm_num [pronunciationFromMetrics, pronunciationRaw, pronunciationDeductions,
      hnrCheck, jitterCheck, shimmerCheck, determineLevel,
      HNR_EXCELLENT, JITTER_EXCELLENT, SHIMMER_EXCELLENT]
  · rw [pronExample_eval]
    norm_num [pronunciationFromMetrics, pronunciationIssues, hnrCheck, jitterCheck, shimmerCheck,
      HNR_EXCELLENT, JITTER_EXCELLENT, SHIMMER_EXCELLENT]

/-- C5 witness: the amended algorithm statement instantiated at `max_score=10`
on the worked-example feature vector. -/
theorem pronunciation_scoring_algorithm_witness :
    (0 ≤ (10 : ℚ)) ∧ (pronunciationScoreCore 10 pronExampleData).score = 10 :=
  ⟨by norm_num, (pronunciation_scoring_algorithm 10 pronExampleData (by norm_num)).2.2.2.2.1⟩

theorem fluencyExample_eval (m : ℚ) :
    fluencyScoreCore m fluencyExampleData =
      fluencyFromMetrics m 90 (2/5) 2 (1/5) 90 30 := by
  unfold fluencyScoreCore
  simp [fluencyExampleData, FeatureMap.getD, alookup]
  norm_num

/-- C6: Fluency scoring algorithm — the fluency scorer counts discrete issues
from the speech-rate bands, the pause patterns (with the pause count first
normalised to a 30-second window as `num_pauses / duration * 30` whenever the
duration is positive) and speed instability, and awards
`max_score * (100% / 75% / 50% / 25%)` for `0 / 1 / 2 / ≥3` issues; for
`speech_rate=90` and `pause_ratio=0.40` with the remaining metrics normal,
exactly the two issues slow-speech and too-many-pauses are detected and
`score = max_score * 0.5`. -/
theorem fluency_scoring_algorithm (m : ℚ) (data : FeatureMap) :
    (fluencyScoreCore m data).score =
      round2 (m * fluencyMultiplier (fluencyScoreCore m data).issues.length)
  ∧ (fluencyMultiplier 0 = 1 ∧ fluencyMultiplier 1 = 3/4 ∧ fluencyMultiplier 2 = 1/2 ∧
      ∀ n, 3 ≤ n → fluencyMultiplier n = 1/4)
  ∧ (0 < data.getD "duration" 1 →
      normalizedPausesOf (data.getD "num_pauses" 0) (data.getD "duration" 1) =
        data.getD "num_pauses" 0 / data.getD "duration" 1 * 30)
  ∧ (fluencyScoreCore m fluencyExampleData).issues =
      [ISSUE_SPEECH_TOO_SLOW, ISSUE_TOO_MANY_PAUSES]
  ∧ (fluencyScoreCore m fluencyExampleData).score = round2 (m * (1/2))
  ∧ (fluencyScoreCore 10 fluencyExampleData).score = 5
  ∧ (fluencyScoreCore m fluencyExampleData).level = ScoreLevel.acceptable := by
  have hissues : (fluencyScoreCore m fluencyExampleData).issues =
      [ISSUE_SPEECH_TOO_SLOW, ISSUE_TOO_MANY_PAUSES] := by
    rw [fluencyExample_eval]
    norm_num [fluencyFromMetrics, fluencyIssuesOf, checkSpeechRate, checkPausePatterns,
      normalizedPausesOf, SPEECH_RATE_SLOW, PAUSE_RATIO_ACCEPTABLE, MEAN_PAUSE_ACCEPTABLE,
      NUM_PAUSES_THRESHOLD, HESITATION_PAUSE_THRESHOLD, FLUENCY_NORMALIZE_DURATION,
      SPEED_STABILITY_THRESHOLD, ISSUE_SPEECH_TOO_SLOW, ISSUE_TOO_MANY_PAUSES]
    rw [if_neg (by decide)]
    rfl
  refine ⟨rfl, ⟨?_, ?_, ?_, ?_⟩, ?_, hissues, ?_, ?_, ?_⟩
  · norm_num [fluencyMultiplier, SCORE_MULTIPLIER_EXCELLENT]
  · norm_num [fluencyMultiplier, SCORE_MULTIPLIER_GOOD]
  · norm_num [fluencyMultiplier, SCORE_MULTIPLIER_ACCEPTABLE]
  · intro n hn
    unfold fluencyMultiplier
    rw [if_neg (by omega), if_neg (by omega), if_neg (by omega)]
    norm_num [SCORE_MULTIPLIER_POOR]
  · intro h
    unfold normalizedPausesOf
    rw [if_pos h]
    norm_num [FLUENCY_NORMALIZE_DURATION]
  · have : (fluencyScoreCore m fluencyExampleData).score =
        round2 (m * fluencyMultiplier (fluencyScoreCore m fluencyExampleData).issues.length) :=
      rfl
    rw [this, hissues]
    norm_num [fluencyMultiplier, SCORE_MULTIPLIER_ACCEPTABLE]
  · have : (fluencyScoreCore 10 fluencyExampleData).score =
        round2 ((10:ℚ) * fluencyMultiplier
          (fluencyScoreCore 10 fluencyExampleData).issues.length) := rfl
    have hiss10 : (fluencyScoreCore 10 fluencyExampleData).issues =
        [ISSUE_SPEECH_TOO_SLOW, ISSUE_TOO_MANY_PAUSES] := by
      rw [fluencyExample_eval]
      norm_num [fluencyFromMetrics, fluencyIssuesOf, checkSpeechRate, checkPausePatterns,
        normalizedPausesOf, SPEECH_RATE_SLOW, PAUSE_RATIO_ACCEPTABLE, MEAN_PAUSE_ACCEPTABLE,
        NUM_PAUSES_THRESHOLD, HESITATION_PAUSE_THRESHOLD, FLUENCY_NORMALIZE_DURATION,
        SPEED_STABILITY_THRESHOLD, ISSUE_SPEECH_TOO_SLOW, ISSUE_TOO_MANY_PAUSES]
      rw [if_neg (by decide)]
      rfl
    rw [this, hiss10]
    norm_num [fluencyMultiplier, SCORE_MULTIPLIER_ACCEPTABLE, round2, round_eq]
  · have : (fluencyScoreCore m fluencyExampleData).level =
        fluencyLevel (fluencyScoreCore m fluencyExampleData).issues.length := rfl
    rw [this, hissues]
    norm_num [fluencyLevel]

/-- C6 witness: the fluency algorithm statement instantiated at
`max_score=10`, where the duration-positivity hypothesis of the normalisation
clause is discharged on the worked example's 30-second duration. -/
theorem fluency_scoring_algorithm_witness :
    (0 : ℚ) < fluencyExampleData.getD "duration" 1 ∧
      normalizedPausesOf (fluencyExampleData.getD "num_pauses" 0)
          (fluencyExampleData.getD "duration" 1) =
        fluencyExampleData.getD "num_pauses" 0 / fluencyExampleData.getD "duration" 1 * 30 := by
  have hpos : (0 : ℚ) < fluencyExampleData.getD "duration" 1 := by
    simp [fluencyExampleData, FeatureMap.getD, alookup]
  exact ⟨hpos, (fluency_scoring_algorithm 10 fluencyExampleData).2.2.1 hpos⟩

/-- C10: Pessimistic in-scorer defaults — a feature mapping lacking a primary
metric is scored with worst-case substitutes: the pronunciation scorer uses
`hnr_mean=0`, `jitter_local=1`, `shimmer_local=1` (the empty mapping lands in
the worst band of all three metrics, yielding score 0 and three issue
strings), and the fluency scorer uses `pause_ratio=1` and `duration=1` for
pause normalisation. -/
theorem pessimistic_defaults (m : ℚ) (data dataF : FeatureMap) (hm : 0 ≤ m)
    (hh : alookup "hnr_mean" data = none) (hj : alookup "jitter_local" data = none)
    (hs : alookup "shimmer_local" data = none)
    (hp : alookup "pause_ratio" dataF = none) (hd : alookup "duration" dataF = none) :
    pronunciationScoreCore m data =
      pronunciationScoreCore m
        ([("hnr_mean", 0), ("jitter_local", 1), ("shimmer_local", 1)] ++ data)
  ∧ fluencyScoreCore m dataF =
      fluencyScoreCore m ([("pause_ratio", 1), ("duration", 1)] ++ dataF)
  ∧ (pronunciationScoreCore m []).score = 0
  ∧ (pronunciationScoreCore m []).issues =
      [ISSUE_NOISY_VOICE, ISSUE_UNSTABLE_VOICE_SEVERE, ISSUE_HIGH_SHIMMER_SEVERE] := by
  refine ⟨?_, ?_, ?_, ?_⟩
  · have e1 : FeatureMap.getD ([("hnr_mean", 0), ("jitter_local", 1), ("shimmer_local", 1)]
        ++ data) "hnr_mean" 0 = 0 := by
      rw [getD_append]
      simp [alookup]
    have e2 : FeatureMap.getD ([("hnr_mean", 0), ("jitter_local", 1), ("shimmer_local", 1)]
        ++ data) "jitter_local" 1 = 1 := by
      rw [getD_append]
      simp [alookup]
    have e3 : FeatureMap.getD ([("hnr_mean", 0), ("jitter_local", 1), ("shimmer_local", 1)]
        ++ data) "shimmer_local" 1 = 1 := by
      rw [getD_append]
      simp [alookup]
    have e4 : ∀ k ∈ (["pitch_range", "pitch_std", "f1_mean", "f2_mean"] : List String), ∀ d : ℚ,
        FeatureMap.getD ([("hnr_mean", 0), ("jitter_local", 1), ("shimmer_local", 1)]
          ++ data) k d = FeatureMap.getD data k d := by
      intro k hk d
      rw [getD_append]
      fin_cases hk <;> simp [alookup]
    unfold pronunciationScoreCore
    rw [e1, e2, e3, e4 _ (by norm_num) 0, e4 _ (by norm_num) 0, e4 _ (by norm_num) 0,
      e4 _ (by norm_num) 0, getD_eq_of_lookup_none data _ _ hh,
      getD_eq_of_lookup_none data _ _ hj, getD_eq_of_lookup_none data _ _ hs]
  · have e1 : FeatureMap.getD ([("pause_ratio", 1), ("duration", 1)] ++ dataF)
        "pause_ratio" 1 = 1 := by
      rw [getD_append]
      simp [alookup]
    have e2 : FeatureMap.getD ([("pause_ratio", 1), ("duration", 1)] ++ dataF)
        "duration" 1 = 1 := by
      rw [getD_append]
      simp [alookup]
    have e3 : ∀ k ∈ (["speech_rate", "num_pauses", "mean_pause_duration",
        "articulation_rate"] : List String), ∀ d : ℚ,
        FeatureMap.getD ([("pause_ratio", 1), ("duration", 1)] ++ dataF) k d =
          FeatureMap.getD dataF k d := by
      intro k hk d
      rw [getD_append]
      fin_cases hk <;> simp [alookup]
    unfold fluencyScoreCore
    rw [e1, e2, e3 _ (by norm_num) 0, e3 _ (by norm_num) 0, e3 _ (by norm_num) 0,
      e3 _ (by norm_num) 0, getD_eq_of_lookup_none dataF _ _ hp,
      getD_eq_of_lookup_none dataF _ _ hd]
  · show round2 (pronunciationRaw m (FeatureMap.getD [] "hnr_mean" 0)
      (FeatureMap.getD [] "jitter_local" 1) (FeatureMap.getD [] "shimmer_local" 1)) = 0
    have hds : pronunciationDeductions (FeatureMap.getD [] "hnr_mean" 0)
        (FeatureMap.getD [] "jitter_local" 1) (FeatureMap.getD [] "shimmer_local" 1) = 6/5 := by
      norm_num [FeatureMap.getD, alookup, pronunciationDeductions, hnrCheck, jitterCheck,
        shimmerCheck, HNR_EXCELLENT, HNR_GOOD, HNR_POOR, JITTER_EXCELLENT, JITTER_ACCEPTABLE,
        JITTER_POOR, SHIMMER_EXCELLENT, SHIMMER_ACCEPTABLE, SHIMMER_POOR, DEDUCTION_SEVERE,
        DEDUCTION_MAJOR]
    unfold pronunciationRaw
    rw [hds]
    have h0 : m * (1 - 6/5) ≤ 0 := by nlinarith
    rw [max_eq_left h0, round2_zero]
  · show pronunciationIssues (FeatureMap.getD [] "hnr_mean" 0)
      (FeatureMap.getD [] "jitter_local" 1) (FeatureMap.getD [] "shimmer_local" 1) = _
    norm_num [FeatureMap.getD, alookup, pronunciationIssues, hnrCheck, jitterCheck,
      shimmerCheck, HNR_EXCELLENT, HNR_GOOD, HNR_POOR, JITTER_EXCELLENT, JITTER_ACCEPTABLE,
      JITTER_POOR, SHIMMER_EXCELLENT, SHIMMER_ACCEPTABLE, SHIMMER_POOR]

/-- C10 witness: the pessimistic-defaults statement instantiated at
`max_score = 10` on mappings lacking the primary metrics. -/
theorem pessimistic_defaults_witness :
    (alookup "hnr_mean" ([("x", 5)] : FeatureMap) = none) ∧
      (pronunciationScoreCore 10 []).score = 0 := by
  refine ⟨by simp [alookup], ?_⟩
  exact (pessimistic_defaults 10 [("x", 5)] [] (by norm_num) (by simp [alookup])
    (by simp [alookup]) (by simp [alookup]) (by simp [alookup]) (by simp [alookup])).2.2.1

/-- C1: Judgment score immutability — for every plan in which the
pronunciation/fluency criterion types are acoustic-sourced (as in the whole
registry), every feature vector and every judge outcome (including a judge
that returns tampered scores for acoustic criteria, fails, or raises), any
pronunciation/fluency entry of the dispatcher's final result carries exactly
the numeric score, max score, percentage, level and details of the
pre-computed deterministic scorer output for that criterion's configured max
score — only feedback and issues can differ. -/
theorem judgment_score_immutability (cfg : TaskConfig) (features : FeatureMap) (stt : Bool)
    (judge : JudgeOutcome)
    (hsep : ∀ c ∈ cfg.criteria, c.source = DataSource.ai →
      c.ctype ≠ CriteriaType.pronunciation ∧ c.ctype ≠ CriteriaType.fluency) :
    (∀ d : ScoreDetail,
      alookup "pronunciation" (score_with_criteria cfg features stt judge) = some d →
      ∃ c, c ∈ cfg.criteria ∧ c.source = DataSource.praat ∧
        c.ctype = CriteriaType.pronunciation ∧
        d.score = (pronunciationScoreCore c.max_score features).score ∧
        d.max_score = c.max_score ∧
        d.percentage = (pronunciationScoreCore c.max_score features).percentage ∧
        d.level = ((pronunciationScoreCore c.max_score features).level).value ∧
        d.details = some (pronunciationScoreCore c.max_score features).details)
  ∧ (∀ d : ScoreDetail,
      alookup "fluency" (score_with_criteria cfg features stt judge) = some d →
      ∃ c, c ∈ cfg.criteria ∧ c.source = DataSource.praat ∧
        c.ctype = CriteriaType.fluency ∧
        d.score = (fluencyScoreCore c.max_score features).score ∧
        d.max_score = c.max_score ∧
        d.percentage = (fluencyScoreCore c.max_score features).percentage ∧
        d.level = ((fluencyScoreCore c.max_score features).level).value ∧
        d.details = some (fluencyScoreCore c.max_score features).details) := by
  constructor
  · intro d h
    unfold score_with_criteria at h
    obtain ⟨d0, h0, e1, e2, e3, e4, e5, e6⟩ :=
      aiPhase_praat_fields cfg stt judge _ "pronunciation" d (Or.inl rfl) hsep h
    unfold praatPhase at h0
    rw [praatFold_lookup_pron] at h0
    cases hl : lastOfType CriteriaType.pronunciation (praat_criteria cfg) with
    | none =>
      rw [hl] at h0
      cases h0
    | some c =>
      rw [hl] at h0
      injection h0 with h0
      subst h0
      have hm := lastOfType_mem hl
      have hmem := praat_criteria_mem cfg hm.1
      exact ⟨c, hmem.1, hmem.2, hm.2, e1, e2, e3, e4, e5⟩
  · intro d h
    unfold score_with_criteria at h
    obtain ⟨d0, h0, e1, e2, e3, e4, e5, e6⟩ :=
      aiPhase_praat_fields cfg stt judge _ "fluency" d (Or.inr rfl) hsep h
    unfold praatPhase at h0
    rw [praatFold_lookup_flu] at h0
    cases hl : lastOfType CriteriaType.fluency (praat_criteria cfg) with
    | none =>
      rw [hl] at h0
      cases h0
    | some c =>
      rw [hl] at h0
      injection h0 with h0
      subst h0
      have hm := lastOfType_mem hl
      have hmem := praat_criteria_mem cfg hm.1
      exact ⟨c, hmem.1, hmem.2, hm.2, e1, e2, e3, e4, e5⟩

/-- C1 witness: the immutability theorem applied at a concrete plan, feature
vector and judge response, with the separation hypothesis and the lookup
hypothesis discharged concretely. -/
theorem judgment_score_immutability_witness :
    (∀ c ∈ PRON_ONLY_CONFIG.criteria, c.source = DataSource.ai →
      c.ctype ≠ CriteriaType.pronunciation ∧ c.ctype ≠ CriteriaType.fluency) ∧
    ∃ c, c ∈ PRON_ONLY_CONFIG.criteria ∧ c.source = DataSource.praat ∧
      c.ctype = CriteriaType.pronunciation ∧
      (scoring_result_to_detail (pronunciationScoreCore 10 []) "Phát âm").score =
        (pronunciationScoreCore c.max_score []).score ∧
      (scoring_result_to_detail (pronunciationScoreCore 10 []) "Phát âm").max_score =
        c.max_score ∧
      (scoring_result_to_detail (pronunciationScoreCore 10 []) "Phát âm").percentage =
        (pronunciationScoreCore c.max_score []).percentage ∧
      (scoring_result_to_detail (pronunciationScoreCore 10 []) "Phát âm").level =
        ((pronunciationScoreCore c.max_score []).level).value ∧
      (scoring_result_to_detail (pronunciationScoreCore 10 []) "Phát âm").details =
        some (pronunciationScoreCore c.max_score []).details :=
  ⟨by decide,
    (judgment_score_immutability PRON_ONLY_CONFIG [] true
      (.call (.returns tamperedJudgeDict)) (by decide)).1 _ rfl⟩

/-- C2 counterexample: the claim's "fixed non-empty diagnostic feedback" is
false — the placeholder feedback embeds the judge error, so two different
judge failures produce two different feedback texts (and the response model
has no `partial` field at all, see `FullScoreResponse`). -/
theorem partial_failure_fixed_feedback_counterexample :
    (alookup "grammar" (score_with_criteria GRAMMAR_ONLY_CONFIG [] true
        (.call (.fails "timeout")))).map ScoreDetail.feedback =
      some "Lỗi khi chấm điểm: timeout"
  ∧ (alookup "grammar" (score_with_criteria GRAMMAR_ONLY_CONFIG [] true
        (.call (.fails "bad json")))).map ScoreDetail.feedback =
      some "Lỗi khi chấm điểm: bad json"
  ∧ ("Lỗi khi chấm điểm: timeout" : String) ≠ "Lỗi khi chấm điểm: bad json" :=
  ⟨rfl, rfl, by decide⟩

/-- C2 (amended): if the single judge call fails (exception or unparseable
response), every judged criterion of the result is a placeholder with
score 0, level "error", the fixed issues marker and a non-empty diagnostic
feedback embedding the judge error; the acoustic criteria keep their
deterministic entries entirely unchanged; the response has success = true
(there is no `partial` field in the response model); and the totals are
computed over exactly the criteria present in the result map. -/
theorem partial_failure_completeness (cfg : TaskConfig) (features : FeatureMap) (msg : String)
    (hsep : ∀ c ∈ cfg.criteria, c.source = DataSource.ai →
      c.ctype ≠ CriteriaType.pronunciation ∧ c.ctype ≠ CriteriaType.fluency) :
    (alookup "pronunciation" (score_with_criteria cfg features true (.call (.fails msg))) =
        alookup "pronunciation" (praatPhase cfg features)
      ∧ alookup "fluency" (score_with_criteria cfg features true (.call (.fails msg))) =
        alookup "fluency" (praatPhase cfg features))
  ∧ (∀ c ∈ cfg.criteria, c.source = DataSource.ai →
      ∃ d : ScoreDetail,
        alookup c.ctype.value (score_with_criteria cfg features true (.call (.fails msg)))
            = some d
        ∧ d.score = 0 ∧ d.level = "error" ∧ d.issues = ["Không có kết quả chấm điểm"]
        ∧ d.feedback = "Lỗi khi chấm điểm: " ++ msg ∧ d.feedback ≠ "")
  ∧ (full_score_audio cfg { success := true, features := some features } true
        (.call (.fails msg))).success = true
  ∧ (full_score_audio cfg { success := true, features := some features } true
        (.call (.fails msg))).scores =
      score_with_criteria cfg features true (.call (.fails msg))
  ∧ (full_score_audio cfg { success := true, features := some features } true
        (.call (.fails msg))).total_percentage =
      round1 (if ((score_with_criteria cfg features true (.call (.fails msg))).map
            (fun p => p.2.max_score)).sum > 0
        then ((score_with_criteria cfg features true (.call (.fails msg))).map
            (fun p => p.2.score)).sum /
          ((score_with_criteria cfg features true (.call (.fails msg))).map
            (fun p => p.2.max_score)).sum * 100
        else 0) := by
  have hpr : ∀ key : String, (key = "pronunciation" ∨ key = "fluency") →
      alookup key (score_with_criteria cfg features true (.call (.fails msg))) =
        alookup key (praatPhase cfg features) := by
    intro key hkey
    unfold score_with_criteria aiPhase
    by_cases hempty : ai_criteria cfg = []
    · rw [if_pos (Or.inl hempty)]
    · rw [if_neg (by rintro (h | h); exacts [hempty h, Bool.noConfusion h])]
      have hu := unified_fails_getCriteria (aiCriteriaConfigOf cfg)
        (praatPreOf (praatPhase cfg features)) msg
      have hkeys : ∀ p ∈ aiCriteriaConfigOf cfg, p.1 ≠ key := by
        intro p hp
        rcases hkey with hk | hk <;> rw [hk]
        · exact (aiConfig_keys_ne cfg hsep p hp).1
        · exact (aiConfig_keys_ne cfg hsep p hp).2
      show alookup key (aiResultsPhase _ _ _ _) = _
      unfold aiResultsPhase
      rw [aiResultsFold_lookup_ne _ _ key _ hkeys, praatFeedbackUpdate_id _ _ hu]
  refine ⟨⟨hpr _ (Or.inl rfl), hpr _ (Or.inr rfl)⟩, ?_, rfl, rfl, rfl⟩
  intro c hc hcsrc
  have hcAi : c ∈ ai_criteria cfg := by
    unfold ai_criteria
    exact List.mem_filter.mpr ⟨hc, by simp [hcsrc]⟩
  have hkey : (c.ctype.value, c.max_score) ∈ aiCriteriaConfigOf cfg := by
    unfold aiCriteriaConfigOf
    exact List.mem_map_of_mem _ hcAi
  obtain ⟨ms, hms⟩ := lastValOf_isSome_of_mem hkey
  have hguard : ¬ (ai_criteria cfg = [] ∨ true = false) := by
    rintro (h | h)
    · exact List.ne_nil_of_mem hcAi h
    · cases h
  have hu := unified_fails_getCriteria (aiCriteriaConfigOf cfg)
    (praatPreOf (praatPhase cfg features)) msg
  have hne : ("Lỗi khi chấm điểm: " ++ msg : String) ≠ "" :=
    string_append_ne_empty _ _ (by decide)
  have heq : score_with_criteria cfg features true (.call (.fails msg)) =
      aiResultsPhase (aiCriteriaConfigOf cfg) (criteriaNamesViOf cfg)
        (unified_ai_scoring (aiCriteriaConfigOf cfg) (praatPreOf (praatPhase cfg features))
          (.fails msg))
        (praatFeedbackUpdate
          (unified_ai_scoring (aiCriteriaConfigOf cfg) (praatPreOf (praatPhase cfg features))
            (.fails msg))
          (praatPhase cfg features)) := by
    unfold score_with_criteria aiPhase
    rw [if_neg hguard]
  rw [heq]
  have hlook : alookup c.ctype.value
      (aiResultsPhase (aiCriteriaConfigOf cfg) (criteriaNamesViOf cfg)
        (unified_ai_scoring (aiCriteriaConfigOf cfg) (praatPreOf (praatPhase cfg features))
          (.fails msg))
        (praatFeedbackUpdate
          (unified_ai_scoring (aiCriteriaConfigOf cfg) (praatPreOf (praatPhase cfg features))
            (.fails msg))
          (praatPhase cfg features))) =
      some (aiPlaceholderDetail (criteriaNamesViOf cfg)
        (unified_ai_scoring (aiCriteriaConfigOf cfg) (praatPreOf (praatPhase cfg features))
          (.fails msg))
        c.ctype.value ms) := by
    unfold aiResultsPhase
    rw [praatFeedbackUpdate_id _ _ hu,
      aiResultsFold_placeholder _ _ c.ctype.value hu _ (praatPhase cfg features), hms]
  refine ⟨_, hlook, rfl, rfl, rfl, ?_, ?_⟩
  · show (if (unified_ai_scoring (aiCriteriaConfigOf cfg)
        (praatPreOf (praatPhase cfg features)) (.fails msg)).overall_feedback ≠ "" then
        (unified_ai_scoring (aiCriteriaConfigOf cfg)
          (praatPreOf (praatPhase cfg features)) (.fails msg)).overall_feedback
      else "Không thể chấm điểm") = "Lỗi khi chấm điểm: " ++ msg
    rw [unified_fails_overall, if_pos hne]
  · show (if (unified_ai_scoring (aiCriteriaConfigOf cfg)
        (praatPreOf (praatPhase cfg features)) (.fails msg)).overall_feedback ≠ "" then
        (unified_ai_scoring (aiCriteriaConfigOf cfg)
          (praatPreOf (praatPhase cfg features)) (.fails msg)).overall_feedback
      else "Không thể chấm điểm") ≠ ""
    rw [unified_fails_overall, if_pos hne]
    exact hne

/-- C2 witness: the amended statement applied at a concrete single-criterion
plan, feature vector and judge error. -/
theorem partial_failure_completeness_witness :
    (∀ c ∈ GRAMMAR_ONLY_CONFIG.criteria, c.source = DataSource.ai →
      c.ctype ≠ CriteriaType.pronunciation ∧ c.ctype ≠ CriteriaType.fluency) ∧
    (full_score_audio GRAMMAR_ONLY_CONFIG { success := true, features := some [] } true
        (.call (.fails "boom"))).success = true :=
  ⟨by decide, (partial_failure_completeness GRAMMAR_ONLY_CONFIG [] "boom" (by decide)).2.2.1⟩

/-- C7 counterexample: for a plan with no acoustic-sourced criterion
(constructible with the source's own `TaskConfig` dataclass), an extraction
failure still aborts the whole request — the abort branch of
`full_score_audio` (scoring.py lines 592-600) never consults
`has_praat_criteria`, so the request does not proceed as the claim states. -/
theorem extraction_abort_counterexample :
    (full_score_audio NO_ACOUSTIC_CONFIG
        { success := false, features := none, error_message := some "Praat failed" }
        true (.call (.fails ""))).success = false
  ∧ (full_score_audio NO_ACOUSTIC_CONFIG
        { success := false, features := none, error_message := some "Praat failed" }
        true (.call (.fails ""))).scores = []
  ∧ NO_ACOUSTIC_CONFIG.has_praat_criteria = false :=
  ⟨rfl, rfl, by decide⟩

/-- C7 (amended): a failure of the acoustic feature extraction always aborts
the request (success = false, empty scores map, the extraction error
surfaced), for every plan — the abort is unconditional; all nine registered
plans do contain at least one acoustic criterion, so on resolvable task codes
the abort coincides with plans requiring acoustic criteria, and the
"proceed without acoustic criteria" behaviour described by the claim is
unreachable dead configuration (`has_praat_criteria` is never consulted). -/
theorem extraction_failure_always_aborts :
    (∀ (cfg : TaskConfig) (raw : RawFeaturesResponse) (stt : Bool) (judge : JudgeOutcome),
      raw.success = false ∨ raw.features = none →
      (full_score_audio cfg raw stt judge).success = false ∧
        (full_score_audio cfg raw stt judge).scores = [] ∧
        (full_score_audio cfg raw stt judge).error_message = raw.error_message)
  ∧ (∀ (code : String) (cfg : TaskConfig), getTaskConfig code = some cfg →
      cfg.has_praat_criteria = true) := by
  constructor
  · rintro cfg ⟨s, f, e⟩ stt judge h
    cases s <;> cases f <;> simp_all [full_score_audio]
  · intro code cfg h
    unfold getTaskConfig TASK_CONFIGS at h
    simp only [alookup] at h
    split_ifs at h <;> injection h with h <;> subst h <;> decide

/-- C7 witness: the amended statement applied to a concrete failed extraction
on a registered plan, and to the registry lookup of that plan. -/
theorem extraction_failure_always_aborts_witness :
    (({ success := false, features := none, error_message := some "praat timeout" } :
        RawFeaturesResponse).success = false ∨
      ({ success := false, features := none, error_message := some "praat timeout" } :
        RawFeaturesResponse).features = none) ∧
    (full_score_audio HSKKSC1_CONFIG
        { success := false, features := none, error_message := some "praat timeout" }
        true (.call (.fails ""))).success = false ∧
    getTaskConfig "HSKKSC1" = some HSKKSC1_CONFIG ∧
    HSKKSC1_CONFIG.has_praat_criteria = true :=
  ⟨Or.inl rfl,
    (extraction_failure_always_aborts.1 HSKKSC1_CONFIG _ true (.call (.fails ""))
      (Or.inl rfl)).1,
    rfl,
    extraction_failure_always_aborts.2 "HSKKSC1" HSKKSC1_CONFIG rfl⟩

theorem determineLevel_eq_tier (s m : ℚ) (hm : 0 < m) :
    determineLevel s m =
      (if 9/10 * m ≤ s then ScoreLevel.excellent
       else if 7/10 * m ≤ s then ScoreLevel.good
       else if 1/2 * m ≤ s then ScoreLevel.acceptable
       else ScoreLevel.poor) := by
  have h90 : ((90:ℚ) ≤ s / m * 100) ↔ 9/10 * m ≤ s := by
    rw [div_mul_eq_mul_div, le_div_iff hm]
    constructor <;> intro h <;> linarith
  have h70 : ((70:ℚ) ≤ s / m * 100) ↔ 7/10 * m ≤ s := by
    rw [div_mul_eq_mul_div, le_div_iff hm]
    constructor <;> intro h <;> linarith
  have h50 : ((50:ℚ) ≤ s / m * 100) ↔ 1/2 * m ≤ s := by
    rw [div_mul_eq_mul_div, le_div_iff hm]
    constructor <;> intro h <;> linarith
  unfold determineLevel
  rw [if_neg hm.ne']
  simp only [ge_iff_le, h90, h70, h50]

theorem fluencyLevel_eq_tier (m : ℚ) (hm : 0 < m) (n : ℕ) :
    fluencyLevel n = determineLevel (m * fluencyMultiplier n) m := by
  have hpct : ∀ c : ℚ, m * c / m * 100 = c * 100 := by
    intro c
    rw [mul_comm m c, mul_div_assoc, div_self hm.ne', mul_one]
  match n with
  | 0 =>
    have hmul : fluencyMultiplier 0 = 1 := by
      norm_num [fluencyMultiplier, SCORE_MULTIPLIER_EXCELLENT]
    have hlev : fluencyLevel 0 = ScoreLevel.excellent := by norm_num [fluencyLevel]
    rw [hlev, hmul]
    unfold determineLevel
    rw [if_neg hm.ne']
    dsimp only
    rw [hpct 1]
    norm_num
  | 1 =>
    have hmul : fluencyMultiplier 1 = 3/4 := by
      norm_num [fluencyMultiplier, SCORE_MULTIPLIER_GOOD]
    have hlev : fluencyLevel 1 = ScoreLevel.good := by norm_num [fluencyLevel]
    rw [hlev, hmul]
    unfold determineLevel
    rw [if_neg hm.ne']
    dsimp only
    rw [hpct (3/4)]
    norm_num
  | 2 =>
    have hmul : fluencyMultiplier 2 = 1/2 := by
      norm_num [fluencyMultiplier, SCORE_MULTIPLIER_ACCEPTABLE]
    have hlev : fluencyLevel 2 = ScoreLevel.acceptable := by norm_num [fluencyLevel]
    rw [hlev, hmul]
    unfold determineLevel
    rw [if_neg hm.ne']
    dsimp only
    rw [hpct (1/2)]
    norm_num
  | (k + 3) =>
    have hmul : fluencyMultiplier (k + 3) = 1/4 := by
      unfold fluencyMultiplier
      rw [if_neg (by omega), if_neg (by omega), if_neg (by omega)]
      norm_num [SCORE_MULTIPLIER_POOR]
    have hlev : fluencyLevel (k + 3) = ScoreLevel.poor := by
      unfold fluencyLevel
      rw [if_neg (by omega), if_neg (by omega), if_neg (by omega)]
    rw [hlev, hmul]
    unfold determineLevel
    rw [if_neg hm.ne']
    dsimp only
    rw [hpct (1/4)]
    norm_num

/-- C9 counterexample: a judged criterion result does not carry a ratio-tier
level — the grammar criterion scored at its full maximum (100%) has level
"ai-scored", not "excellent". -/
theorem level_tier_counterexample :
    (alookup "grammar" (score_with_criteria GRAMMAR_ONLY_CONFIG [] true
        (.call (.returns grammarFullJudgeDict)))).map ScoreDetail.level = some "ai-scored"
  ∧ (alookup "grammar" (score_with_criteria GRAMMAR_ONLY_CONFIG [] true
        (.call (.returns grammarFullJudgeDict)))).map ScoreDetail.score = some 4
  ∧ (alookup "grammar" (score_with_criteria GRAMMAR_ONLY_CONFIG [] true
        (.call (.returns grammarFullJudgeDict)))).map ScoreDetail.max_score = some 4
  ∧ ("ai-scored" : String) ≠ "excellent" :=
  ⟨rfl, by
    have h : (alookup "grammar" (score_with_criteria GRAMMAR_ONLY_CONFIG [] true
        (.call (.returns grammarFullJudgeDict)))).map ScoreDetail.score = some (min 7 4) := rfl
    rw [h]
    norm_num,
   rfl, by decide⟩

/-- C9 (amended): criterion results produced by the acoustic scorers derive
their level from the pre-rounding score / max_score ratio by the fixed tiers
(at least 90% excellent, at least 70% good, at least 50% acceptable,
otherwise poor; a zero max score gives poor); judged-criteria results instead
carry the literal level "ai-scored", failure placeholders carry "error", and
every other entry of the dispatcher's result keeps the level the acoustic
phase derived. -/
theorem level_tier_derivation (m : ℚ) (data : FeatureMap) (hm : 0 < m) :
    (pronunciationScoreCore m data).level =
      (if 9/10 * m ≤ pronunciationRaw m (data.getD "hnr_mean" 0) (data.getD "jitter_local" 1)
          (data.getD "shimmer_local" 1) then ScoreLevel.excellent
       else if 7/10 * m ≤ pronunciationRaw m (data.getD "hnr_mean" 0)
          (data.getD "jitter_local" 1) (data.getD "shimmer_local" 1) then ScoreLevel.good
       else if 1/2 * m ≤ pronunciationRaw m (data.getD "hnr_mean" 0)
          (data.getD "jitter_local" 1) (data.getD "shimmer_local" 1) then
         ScoreLevel.acceptable
       else ScoreLevel.poor)
  ∧ (fluencyScoreCore m data).level =
      (if 9/10 * m ≤ m * fluencyMultiplier (fluencyScoreCore m data).issues.length then
         ScoreLevel.excellent
       else if 7/10 * m ≤ m * fluencyMultiplier (fluencyScoreCore m data).issues.length then
         ScoreLevel.good
       else if 1/2 * m ≤ m * fluencyMultiplier (fluencyScoreCore m data).issues.length then
         ScoreLevel.acceptable
       else ScoreLevel.poor)
  ∧ (∀ (cfg : TaskConfig) (stt : Bool) (judge : JudgeOutcome) (key : String) (d : ScoreDetail),
      alookup key (score_with_criteria cfg data stt judge) = some d →
      d.level = "ai-scored" ∨ d.level = "error" ∨
        ∃ d0, alookup key (praatPhase cfg data) = some d0 ∧ d.level = d0.level) := by
  refine ⟨determineLevel_eq_tier _ m hm, ?_, ?_⟩
  · exact (fluencyLevel_eq_tier m hm _).trans (determineLevel_eq_tier _ m hm)
  · intro cfg stt judge key d h
    unfold score_with_criteria aiPhase at h
    by_cases hguard : ai_criteria cfg = [] ∨ stt = false
    · rw [if_pos hguard] at h
      exact Or.inr (Or.inr ⟨d, h, rfl⟩)
    · rw [if_neg hguard] at h
      cases judge with
      | dispatchError msg =>
        unfold aiDispatchErrorPhase at h
        rcases aiDispatchFold_level msg key _ _ _ h with h1 | h2
        · exact Or.inr (Or.inl h1)
        · exact Or.inr (Or.inr ⟨d, h2, rfl⟩)
      | call c =>
        unfold aiResultsPhase at h
        rcases aiResultsFold_level _ _ key _ _ _ h with h1 | h2 | h3
        · exact Or.inl h1
        · exact Or.inr (Or.inl h2)
        · obtain ⟨d0, h0, _, _, _, e4, _, _⟩ := praatFeedbackUpdate_fields _ _ _ _ h3
          exact Or.inr (Or.inr ⟨d0, h0, e4⟩)

/-- C9 witness: the tier derivation applied at `max_score = 10` on the
worked-example feature vector, for which the raw score is 10 and the level
excellent. -/
theorem level_tier_derivation_witness :
    (0 : ℚ) < 10 ∧ (pronunciationScoreCore 10 pronExampleData).level = ScoreLevel.excellent := by
  refine ⟨by norm_num, ?_⟩
  rw [(level_tier_derivation 10 pronExampleData (by norm_num)).1,
    if_pos ?hraw]
  case hraw =>
    show (9:ℚ)/10 * 10 ≤ pronunciationRaw 10 (pronExampleData.getD "hnr_mean" 0)
      (pronExampleData.getD "jitter_local" 1) (pronExampleData.getD "shimmer_local" 1)
    have h1 : pronExampleData.getD "hnr_mean" 0 = 22 := by
      simp [pronExampleData, FeatureMap.getD, alookup]
    have h2 : pronExampleData.getD "jitter_local" 1 = 8/1000 := by
      simp [pronExampleData, FeatureMap.getD, alookup]
      norm_num
    have h3 : pronExampleData.getD "shimmer_local" 1 = 4/100 := by
      simp [pronExampleData, FeatureMap.getD, alookup]
      norm_num
    rw [h1, h2, h3]
    norm_num [pronunciationRaw, pronunciationDeductions, hnrCheck, jitterCheck, shimmerCheck,
      HNR_EXCELLENT, JITTER_EXCELLENT, SHIMMER_EXCELLENT]

theorem safeGet_bounds (d : List (String × ℚ)) (key : String) (dflt lo hi : ℚ) (h : lo ≤ hi) :
    lo ≤ safeGet d key dflt (some lo) (some hi) ∧ safeGet d key dflt (some lo) (some hi) ≤ hi := by
  unfold safeGet
  cases alookup key d <;> exact ⟨le_min h (le_max_left _ _), min_le_left _ _⟩

theorem safeGet_lower (d : List (String × ℚ)) (key : String) (dflt lo : ℚ) :
    lo ≤ safeGet d key dflt (some lo) none := by
  unfold safeGet
  cases alookup key d <;> exact le_max_left _ _

/-! Projection equations for `parse_features_file`, used to rewrite record
projections into their `safeGet` form before applying the bound lemmas. -/

theorem pff_duration (raw : List (String × RawVal)) :
    (parse_features_file raw).duration = safeGet (featuresDictOf raw) "duration" 0.0 (some 0.0) none := rfl

theorem pff_pitch_mean (raw : List (String × RawVal)) :
    (parse_features_file raw).pitch_mean = safeGet (featuresDictOf raw) "pitch_mean" 200.0 (some 50.0) (some 500.0) := rfl

theorem pff_pitch_std (raw : List (String × RawVal)) :
    (parse_features_file raw).pitch_std = safeGet (featuresDictOf raw) "pitch_std" 30.0 (some 0.0) none := rfl

theorem pff_pitch_range (raw : List (String × RawVal)) :
    (parse_features_file raw).pitch_range = safeGet (featuresDictOf raw) "pitch_range" 100.0 (some 0.0) none := rfl

theorem pff_pitch_min (raw : List (String × RawVal)) :
    (parse_features_file raw).pitch_min = safeGet (featuresDictOf raw) "pitch_min" 150.0 (some 50.0) (some 500.0) := rfl

theorem pff_pitch_max (raw : List (String × RawVal)) :
    (parse_features_file raw).pitch_max = safeGet (featuresDictOf raw) "pitch_max" 250.0 (some 50.0) (some 500.0) := rfl

theorem pff_pitch_median (raw : List (String × RawVal)) :
    (parse_features_file raw).pitch_median = safeGet (featuresDictOf raw) "pitch_median" 200.0 (some 50.0) (some 500.0) := rfl

theorem pff_pitch_quantile_25 (raw : List (String × RawVal)) :
    (parse_features_file raw).pitch_quantile_25 = safeGet (featuresDictOf raw) "pitch_quantile_25" 180.0 (some 50.0) (some 500.0) := rfl

theorem pff_pitch_quantile_75 (raw : List (String × RawVal)) :
    (parse_features_file raw).pitch_quantile_75 = safeGet (featuresDictOf raw) "pitch_quantile_75" 220.0 (some 50.0) (some 500.0) := rfl

theorem pff_f1_mean (raw : List (String × RawVal)) :
    (parse_features_file raw).f1_mean = safeGet (featuresDictOf raw) "f1_mean" 500.0 (some 200.0) (some 1000.0) := rfl

theorem pff_f1_std (raw : List (String × RawVal)) :
    (parse_features_file raw).f1_std = safeGet (featuresDictOf raw) "f1_std" 50.0 (some 0.0) none := rfl

theorem pff_f2_mean (raw : List (String × RawVal)) :
    (parse_features_file raw).f2_mean = safeGet (featuresDictOf raw) "f2_mean" 1500.0 (some 800.0) (some 3000.0) := rfl

theorem pff_f2_std (raw : List (String × RawVal)) :
    (parse_features_file raw).f2_std = safeGet (featuresDictOf raw) "f2_std" 100.0 (some 0.0) none := rfl

theorem pff_f3_mean (raw : List (String × RawVal)) :
    (parse_features_file raw).f3_mean = safeGet (featuresDictOf raw) "f3_mean" 2500.0 (some 1500.0) (some 4000.0) := rfl

theorem pff_f3_std (raw : List (String × RawVal)) :
    (parse_features_file raw).f3_std = safeGet (featuresDictOf raw) "f3_std" 150.0 (some 0.0) none := rfl

theorem pff_f4_mean (raw : List (String × RawVal)) :
    (parse_features_file raw).f4_mean = safeGet (featuresDictOf raw) "f4_mean" 3500.0 (some 2500.0) (some 5000.0) := rfl

theorem pff_f4_std (raw : List (String × RawVal)) :
    (parse_features_file raw).f4_std = safeGet (featuresDictOf raw) "f4_std" 200.0 (some 0.0) none := rfl

theorem pff_intensity_mean (raw : List (String × RawVal)) :
    (parse_features_file raw).intensity_mean = safeGet (featuresDictOf raw) "intensity_mean" 60.0 (some 0.0) (some 100.0) := rfl

theorem pff_intensity_std (raw : List (String × RawVal)) :
    (parse_features_file raw).intensity_std = safeGet (featuresDictOf raw) "intensity_std" 5.0 (some 0.0) none := rfl

theorem pff_intensity_min (raw : List (String × RawVal)) :
    (parse_features_file raw).intensity_min = safeGet (featuresDictOf raw) "intensity_min" 40.0 (some 0.0) (some 100.0) := rfl

theorem pff_intensity_max (raw : List (String × RawVal)) :
    (parse_features_file raw).intensity_max = safeGet (featuresDictOf raw) "intensity_max" 80.0 (some 0.0) (some 100.0) := rfl

theorem pff_spectral_centroid (raw : List (String × RawVal)) :
    (parse_features_file raw).spectral_centroid = safeGet (featuresDictOf raw) "spectral_centroid" 1000.0 (some 100.0) none := rfl

theorem pff_spectral_std (raw : List (String × RawVal)) :
    (parse_features_file raw).spectral_std = safeGet (featuresDictOf raw) "spectral_std" 500.0 (some 0.0) none := rfl

theorem pff_hnr_mean (raw : List (String × RawVal)) :
    (parse_features_file raw).hnr_mean = safeGet (featuresDictOf raw) "hnr_mean" 20.0 (some 0.0) (some 40.0) := rfl

theorem pff_hnr_std (raw : List (String × RawVal)) :
    (parse_features_file raw).hnr_std = safeGet (featuresDictOf raw) "hnr_std" 2.0 (some 0.0) none := rfl

theorem pff_jitter_local (raw : List (String × RawVal)) :
    (parse_features_file raw).jitter_local = safeGet (featuresDictOf raw) "jitter_local" 0.01 (some 0.0) (some 0.1) := rfl

theorem pff_jitter_rap (raw : List (String × RawVal)) :
    (parse_features_file raw).jitter_rap = safeGet (featuresDictOf raw) "jitter_rap" 0.01 (some 0.0) (some 0.1) := rfl

theorem pff_jitter_ppq5 (raw : List (String × RawVal)) :
    (parse_features_file raw).jitter_ppq5 = safeGet (featuresDictOf raw) "jitter_ppq5" 0.01 (some 0.0) (some 0.1) := rfl

theorem pff_shimmer_local (raw : List (String × RawVal)) :
    (parse_features_file raw).shimmer_local = safeGet (featuresDictOf raw) "shimmer_local" 0.1 (some 0.0) (some 1.0) := rfl

theorem pff_shimmer_apq3 (raw : List (String × RawVal)) :
    (parse_features_file raw).shimmer_apq3 = safeGet (featuresDictOf raw) "shimmer_apq3" 0.1 (some 0.0) (some 1.0) := rfl

theorem pff_shimmer_apq5 (raw : List (String × RawVal)) :
    (parse_features_file raw).shimmer_apq5 = safeGet (featuresDictOf raw) "shimmer_apq5" 0.1 (some 0.0) (some 1.0) := rfl

theorem pff_shimmer_apq11 (raw : List (String × RawVal)) :
    (parse_features_file raw).shimmer_apq11 = safeGet (featuresDictOf raw) "shimmer_apq11" 0.1 (some 0.0) (some 1.0) := rfl

theorem pff_speech_rate (raw : List (String × RawVal)) :
    (parse_features_file raw).speech_rate = safeGet (featuresDictOf raw) "speech_rate" 180.0 (some 0.0) none := rfl

theorem pff_articulation_rate (raw : List (String × RawVal)) :
    (parse_features_file raw).articulation_rate = safeGet (featuresDictOf raw) "articulation_rate" 200.0 (some 0.0) none := rfl

theorem pff_pause_duration (raw : List (String × RawVal)) :
    (parse_features_file raw).pause_duration = safeGet (featuresDictOf raw) "pause_duration" 0.0 (some 0.0) none := rfl

theorem pff_pause_ratio (raw : List (String × RawVal)) :
    (parse_features_file raw).pause_ratio = safeGet (featuresDictOf raw) "pause_ratio" 0.1 (some 0.0) (some 1.0) := rfl

theorem pff_mean_pause_duration (raw : List (String × RawVal)) :
    (parse_features_file raw).mean_pause_duration = safeGet (featuresDictOf raw) "mean_pause_duration" 0.0 (some 0.0) none := rfl

theorem pff_cog (raw : List (String × RawVal)) :
    (parse_features_file raw).cog = safeGet (featuresDictOf raw) "cog" 1000.0 (some 0.0) none := rfl

theorem pff_speech_duration (raw : List (String × RawVal)) :
    (parse_features_file raw).speech_duration =
      safeGet (featuresDictOf raw) "speech_duration" (safeGet (featuresDictOf raw) "duration" 0.0 (some 0.0) none) (some 0.0) (some (safeGet (featuresDictOf raw) "duration" 0.0 (some 0.0) none)) := rfl

theorem pff_num_pauses (raw : List (String × RawVal)) :
    (parse_features_file raw).num_pauses = ⌊safeGet (featuresDictOf raw) "num_pauses" 0 (some 0) none⌋ := rfl

/-- C8 counterexample: a raw engine line carrying an undefined marker is not
replaced by the field's documented default — `pitch_mean,undefined` parses to
`0.0` and is then clamped to the range minimum 50, not to the default 200. -/
theorem adapter_default_counterexample :
    (parse_features_file [("pitch_mean", RawVal.invalid)]).pitch_mean = 50
  ∧ ((50 : ℚ) = 200) = False := by
  constructor
  · show safeGet [("pitch_mean", 0)] "pitch_mean" 200.0 (some 50.0) (some 500.0) = 50
    norm_num [safeGet, alookup, min_def, max_def]
  · norm_num

set_option maxHeartbeats 1000000 in
theorem parse_features_file_nil : parse_features_file [] = defaultAudioFeatures := by
  unfold parse_features_file defaultAudioFeatures featuresDictOf
  simp only [List.map_nil]
  norm_num [safeGet, alookup, min_def, max_def, AudioFeatures.mk.injEq]

set_option maxHeartbeats 1600000 in
/-- C8 (amended): on every successful extraction all fields of the feature
vector are populated; a field absent from the raw output receives its
documented default (the empty raw output yields exactly the default record);
a field present with an undefined or unparseable value is coerced to 0.0 and
then clamped (exemplified on pitch_mean: clamping lands it on the range
minimum 50, not the default 200); and every field with a documented valid
range always lies within that range. -/
theorem adapter_default_and_clamp (raw : List (String × RawVal)) :
    parse_features_file [] = defaultAudioFeatures
  ∧ (alookup "pitch_mean" raw = some RawVal.invalid →
      (parse_features_file raw).pitch_mean = 50)
  ∧ (50.0 ≤ (parse_features_file raw).pitch_mean ∧ (parse_features_file raw).pitch_mean ≤ 500.0)
  ∧ (50.0 ≤ (parse_features_file raw).pitch_min ∧ (parse_features_file raw).pitch_min ≤ 500.0)
  ∧ (50.0 ≤ (parse_features_file raw).pitch_max ∧ (parse_features_file raw).pitch_max ≤ 500.0)
  ∧ (50.0 ≤ (parse_features_file raw).pitch_median ∧ (parse_features_file raw).pitch_median ≤ 500.0)
  ∧ (50.0 ≤ (parse_features_file raw).pitch_quantile_25 ∧ (parse_features_file raw).pitch_quantile_25 ≤ 500.0)
  ∧ (50.0 ≤ (parse_features_file raw).pitch_quantile_75 ∧ (parse_features_file raw).pitch_quantile_75 ≤ 500.0)
  ∧ (200.0 ≤ (parse_features_file raw).f1_mean ∧ (parse_features_file raw).f1_mean ≤ 1000.0)
  ∧ (800.0 ≤ (parse_features_file raw).f2_mean ∧ (parse_features_file raw).f2_mean ≤ 3000.0)
  ∧ (1500.0 ≤ (parse_features_file raw).f3_mean ∧ (parse_features_file raw).f3_mean ≤ 4000.0)
  ∧ (2500.0 ≤ (parse_features_file raw).f4_mean ∧ (parse_features_file raw).f4_mean ≤ 5000.0)
  ∧ (0.0 ≤ (parse_features_file raw).intensity_mean ∧ (parse_features_file raw).intensity_mean ≤ 100.0)
  ∧ (0.0 ≤ (parse_features_file raw).intensity_min ∧ (parse_features_file raw).intensity_min ≤ 100.0)
  ∧ (0.0 ≤ (parse_features_file raw).intensity_max ∧ (parse_features_file raw).intensity_max ≤ 100.0)
  ∧ (0.0 ≤ (parse_features_file raw).hnr_mean ∧ (parse_features_file raw).hnr_mean ≤ 40.0)
  ∧ (0.0 ≤ (parse_features_file raw).jitter_local ∧ (parse_features_file raw).jitter_local ≤ 0.1)
  ∧ (0.0 ≤ (parse_features_file raw).jitter_rap ∧ (parse_features_file raw).jitter_rap ≤ 0.1)
  ∧ (0.0 ≤ (parse_features_file raw).jitter_ppq5 ∧ (parse_features_file raw).jitter_ppq5 ≤ 0.1)
  ∧ (0.0 ≤ (parse_features_file raw).shimmer_local ∧ (parse_features_file raw).shimmer_local ≤ 1.0)
  ∧ (0.0 ≤ (parse_features_file raw).shimmer_apq3 ∧ (parse_features_file raw).shimmer_apq3 ≤ 1.0)
  ∧ (0.0 ≤ (parse_features_file raw).shimmer_apq5 ∧ (parse_features_file raw).shimmer_apq5 ≤ 1.0)
  ∧ (0.0 ≤ (parse_features_file raw).shimmer_apq11 ∧ (parse_features_file raw).shimmer_apq11 ≤ 1.0)
  ∧ (0.0 ≤ (parse_features_file raw).pause_ratio ∧ (parse_features_file raw).pause_ratio ≤ 1.0)
  ∧ (0.0 ≤ (parse_features_file raw).speech_duration ∧
      (parse_features_file raw).speech_duration ≤ (parse_features_file raw).duration)
  ∧ 100.0 ≤ (parse_features_file raw).spectral_centroid
  ∧ 0.0 ≤ (parse_features_file raw).duration
  ∧ 0.0 ≤ (parse_features_file raw).pitch_std
  ∧ 0.0 ≤ (parse_features_file raw).pitch_range
  ∧ 0.0 ≤ (parse_features_file raw).f1_std
  ∧ 0.0 ≤ (parse_features_file raw).f2_std
  ∧ 0.0 ≤ (parse_features_file raw).f3_std
  ∧ 0.0 ≤ (parse_features_file raw).f4_std
  ∧ 0.0 ≤ (parse_features_file raw).intensity_std
  ∧ 0.0 ≤ (parse_features_file raw).spectral_std
  ∧ 0.0 ≤ (parse_features_file raw).hnr_std
  ∧ 0.0 ≤ (parse_features_file raw).speech_rate
  ∧ 0.0 ≤ (parse_features_file raw).articulation_rate
  ∧ 0.0 ≤ (parse_features_file raw).pause_duration
  ∧ 0.0 ≤ (parse_features_file raw).mean_pause_duration
  ∧ 0.0 ≤ (parse_features_file raw).cog
  ∧ 0 ≤ (parse_features_file raw).num_pauses := by
  simp only [pff_pitch_mean, pff_pitch_min, pff_pitch_max, pff_pitch_median,
    pff_pitch_quantile_25, pff_pitch_quantile_75, pff_f1_mean, pff_f2_mean, pff_f3_mean,
    pff_f4_mean, pff_intensity_mean, pff_intensity_min, pff_intensity_max, pff_hnr_mean,
    pff_jitter_local, pff_jitter_rap, pff_jitter_ppq5, pff_shimmer_local, pff_shimmer_apq3,
    pff_shimmer_apq5, pff_shimmer_apq11, pff_pause_ratio, pff_speech_duration,
    pff_spectral_centroid, pff_duration, pff_pitch_std, pff_pitch_range, pff_f1_std, pff_f2_std,
    pff_f3_std, pff_f4_std, pff_intensity_std, pff_spectral_std, pff_hnr_std, pff_speech_rate,
    pff_articulation_rate, pff_pause_duration, pff_mean_pause_duration, pff_cog, pff_num_pauses]
  refine ⟨parse_features_file_nil, ?_,
    safeGet_bounds _ _ _ _ _ (by norm_num),
    safeGet_bounds _ _ _ _ _ (by norm_num),
    safeGet_bounds _ _ _ _ _ (by norm_num),
    safeGet_bounds _ _ _ _ _ (by norm_num),
    safeGet_bounds _ _ _ _ _ (by norm_num),
    safeGet_bounds _ _ _ _ _ (by norm_num),
    safeGet_bounds _ _ _ _ _ (by norm_num),
    safeGet_bounds _ _ _ _ _ (by norm_num),
    safeGet_bounds _ _ _ _ _ (by norm_num),
    safeGet_bounds _ _ _ _ _ (by norm_num),
    safeGet_bounds _ _ _ _ _ (by norm_num),
    safeGet_bounds _ _ _ _ _ (by norm_num),
    safeGet_bounds _ _ _ _ _ (by norm_num),
    safeGet_bounds _ _ _ _ _ (by norm_num),
    safeGet_bounds _ _ _ _ _ (by norm_num),
    safeGet_bounds _ _ _ _ _ (by norm_num),
    safeGet_bounds _ _ _ _ _ (by norm_num),
    safeGet_bounds _ _ _ _ _ (by norm_num),
    safeGet_bounds _ _ _ _ _ (by norm_num),
    safeGet_bounds _ _ _ _ _ (by norm_num),
    safeGet_bounds _ _ _ _ _ (by norm_num),
    safeGet_bounds _ _ _ _ _ (by norm_num),
    safeGet_bounds _ _ _ _ _ (safeGet_lower _ _ _ _),
    safeGet_lower _ _ _ _,
    safeGet_lower _ _ _ _,
    safeGet_lower _ _ _ _,
    safeGet_lower _ _ _ _,
    safeGet_lower _ _ _ _,
    safeGet_lower _ _ _ _,
    safeGet_lower _ _ _ _,
    safeGet_lower _ _ _ _,
    safeGet_lower _ _ _ _,
    safeGet_lower _ _ _ _,
    safeGet_lower _ _ _ _,
    safeGet_lower _ _ _ _,
    safeGet_lower _ _ _ _,
    safeGet_lower _ _ _ _,
    safeGet_lower _ _ _ _,
    safeGet_lower _ _ _ _,
    Int.floor_nonneg.mpr (safeGet_lower _ _ _ _)⟩
  intro h
  have hfd : alookup "pitch_mean" (featuresDictOf raw) = some 0 := by
    unfold featuresDictOf
    rw [alookup_map, h]
    rfl
  unfold safeGet
  rw [hfd]
  norm_num [min_def, max_def]

/-- C8 witness: the amended adapter statement applied at the raw output whose
single line is an undefined pitch_mean, with the lookup hypothesis discharged
concretely. -/
theorem adapter_default_and_clamp_witness :
    alookup "pitch_mean" [("pitch_mean", RawVal.invalid)] = some RawVal.invalid ∧
      (parse_features_file [("pitch_mean", RawVal.invalid)]).pitch_mean = 50 := by
  have h : alookup "pitch_mean" [("pitch_mean", RawVal.invalid)] = some RawVal.invalid := rfl
  refine ⟨h, ?_⟩
  exact (adapter_default_and_clamp [("pitch_mean", RawVal.invalid)]).2.1 h

end HSKK
